import Mathlib

set_option maxRecDepth 10000

/-
Verification of the zig-mcp-server heuristic text-analysis engine and
template generator.  JavaScript strings are modelled as lists of
characters (`Str`); the regular expressions used by the code are
modelled by a small backtracking matcher (`RE`, `reMatch`) that follows
the JavaScript semantics (leftmost match, alternation priority, greedy
character-class repetition, `lastIndex`-style scanning for the `g`
flag).  Character classes are restricted to the ASCII interpretations of
`\s`, `\w`, `\d` used by the analysed patterns.
-/

-- ===== JS string model =====

abbrev Str := List Char

def str (s : String) : Str := s.data

def lbrace : Char := Char.ofNat 123

def rbrace : Char := Char.ofNat 125

-- JS `\s` over the ASCII range: space, tab, newline, carriage return,
-- vertical tab, form feed.
def jsWhitespace (c : Char) : Bool :=
  c == ' ' || c == '\t' || c == '\n' || c == '\r' ||
  c == Char.ofNat 11 || c == Char.ofNat 12

-- JS `\w`: ASCII letters, digits and underscore.
def jsWordChar (c : Char) : Bool :=
  (97 ≤ c.toNat && c.toNat ≤ 122) || (65 ≤ c.toNat && c.toNat ≤ 90) ||
  (48 ≤ c.toNat && c.toNat ≤ 57) || c == '_'

def jsDigit (c : Char) : Bool := 48 ≤ c.toNat && c.toNat ≤ 57

-- JS `.` without the `s` flag (line terminators excluded).
def jsDot (c : Char) : Bool := c != '\n' && c != '\r'

-- JS `.` with the `s` flag and `[\s\S]`.
def jsAny (_c : Char) : Bool := true

def notChar (x : Char) (c : Char) : Bool := c != x

-- `pat` occurs as a contiguous substring of `s` (JS `String.includes`).
def isSub (pat s : Str) : Bool :=
  match s with
  | [] => pat.isEmpty
  | c :: t => pat.isPrefixOf (c :: t) || isSub pat t

def includes (s pat : Str) : Bool := isSub pat s

def toLowerCase (s : Str) : Str := s.map Char.toLower

def splitLines (s : Str) : List Str := s.splitOn '\n'

def trimStr (s : Str) : Str :=
  ((s.dropWhile jsWhitespace).reverse.dropWhile jsWhitespace).reverse

def joinSep (sep : Char) : List Str → Str
  | [] => []
  | [x] => x
  | x :: y :: t => x ++ sep :: joinSep sep (y :: t)

def joinNL (l : List Str) : Str := joinSep '\n' l

def natStr (n : Nat) : Str := (Nat.repr n).data

def intStr (i : Int) : Str := (Int.repr i).data

-- `Math.round(num/den)` for non-negative exact rationals (JS rounds
-- half up); floating-point rounding artifacts are not modelled.
def jsRound (num den : Nat) : Nat := (2 * num + den) / (2 * den)

-- `(num/den).toFixed(1)` for non-negative exact rationals.
def toFixed1 (num den : Nat) : Str :=
  let tenths := (num * 10 * 2 + den) / (2 * den)
  natStr (tenths / 10) ++ '.' :: natStr (tenths % 10)

-- ===== Regular-expression model =====

inductive RE : Type where
  | lit (w : Str)
  | liti (w : Str)
  | cls (p : Char → Bool)
  | alt (a b : RE)
  | seq (a b : RE)
  | star (p : Char → Bool)
  | plus (p : Char → Bool)
  | repRange (p : Char → Bool) (lo hi : Nat)
  | optc (p : Char → Bool)
  | starG (r : RE)
  | optG (r : RE)
  | bolM | eolM | bolA | eolA | wb

-- Greedy splits for `p*`: longest consumption first, in backtracking
-- priority order.  The first component tracks the previous character.
def clsStarSplits (p : Char → Bool) : Option Char → Str → List (Option Char × Str)
  | pv, [] => [(pv, [])]
  | pv, c :: t =>
    if p c then clsStarSplits p (some c) t ++ [(pv, c :: t)]
    else [(pv, c :: t)]

-- Greedy splits for `p{0,hi}` with the consumed count.
def clsRepSplits (p : Char → Bool) : Nat → Option Char → Str → List (Nat × Option Char × Str)
  | 0, pv, s => [(0, pv, s)]
  | _ + 1, pv, [] => [(0, pv, [])]
  | hi + 1, pv, c :: t =>
    if p c then
      (clsRepSplits p hi (some c) t).map (fun r => (r.1 + 1, r.2.1, r.2.2)) ++ [(0, pv, c :: t)]
    else [(0, pv, c :: t)]

-- Greedy iteration of a step function (used for `(...)*` over a
-- subexpression): more iterations first, and an iteration must consume
-- at least one character, as in the JS empty-iteration rule.
def iterStar (step : Option Char → Str → List (Option Char × Str)) :
    Nat → Option Char → Str → List (Option Char × Str)
  | 0, pv, s => [(pv, s)]
  | fuel + 1, pv, s =>
    ((step pv s).filter (fun q => q.2.length < s.length)).flatMap
      (fun q => iterStar step fuel q.1 q.2) ++ [(pv, s)]

def lastChar (w : Str) (pv : Option Char) : Option Char :=
  match w.getLast? with
  | some c => some c
  | none => pv

-- All ways a regex can match a prefix of `s`, in backtracking priority
-- order; each result is the previous-character context and remainder
-- after the match.  The head of the list is the match JS would choose.
def reMatch : RE → Option Char → Str → List (Option Char × Str)
  | .lit w, pv, s =>
    if w.isPrefixOf s then [(lastChar w pv, s.drop w.length)] else []
  | .liti w, pv, s =>
    let pre := s.take w.length
    if pre.length == w.length && pre.map Char.toLower == w then
      [(lastChar pre pv, s.drop w.length)]
    else []
  | .cls p, _, s =>
    match s with
    | [] => []
    | c :: t => if p c then [(some c, t)] else []
  | .alt a b, pv, s => reMatch a pv s ++ reMatch b pv s
  | .seq a b, pv, s => (reMatch a pv s).flatMap (fun r => reMatch b r.1 r.2)
  | .star p, pv, s => clsStarSplits p pv s
  | .plus p, _, s =>
    match s with
    | [] => []
    | c :: t => if p c then clsStarSplits p (some c) t else []
  | .repRange p lo hi, pv, s =>
    (clsRepSplits p hi pv s).filterMap
      (fun r => if lo ≤ r.1 then some (r.2.1, r.2.2) else none)
  | .optc p, pv, s =>
    match s with
    | [] => [(pv, [])]
    | c :: t => if p c then [(some c, t), (pv, c :: t)] else [(pv, c :: t)]
  | .starG r, pv, s => iterStar (reMatch r) s.length pv s
  | .optG r, pv, s => reMatch r pv s ++ [(pv, s)]
  | .bolM, pv, s => if pv == none || pv == some '\n' then [(pv, s)] else []
  | .eolM, pv, s =>
    match s with
    | [] => [(pv, [])]
    | c :: t => if c == '\n' then [(pv, c :: t)] else []
  | .bolA, pv, s => if pv == none then [(pv, s)] else []
  | .eolA, pv, s =>
    match s with
    | [] => [(pv, [])]
    | _ :: _ => []
  | .wb, pv, s =>
    let before := match pv with | none => false | some c => jsWordChar c
    let after := match s with | [] => false | c :: _ => jsWordChar c
    if before != after then [(pv, s)] else []

-- The matched substrings of a global (`g`) scan, in order, following
-- the JS `lastIndex` rule (an empty match advances by one character).
def scanTexts (r : RE) : Nat → Option Char → Str → List Str
  | 0, _, _ => []
  | fuel + 1, pv, s =>
    match reMatch r pv s with
    | (pv2, s2) :: _ =>
      let txt := s.take (s.length - s2.length)
      if s2.length < s.length then txt :: scanTexts r fuel pv2 s2
      else
        match s with
        | [] => [txt]
        | c :: t => txt :: scanTexts r fuel (some c) t
    | [] =>
      match s with
      | [] => []
      | c :: t => scanTexts r fuel (some c) t

def matchTexts (r : RE) (s : Str) : List Str := scanTexts r (s.length + 1) none s

def countMatches (r : RE) (s : Str) : Nat := (matchTexts r s).length

-- Non-null test of `s.match(r)` / `r.test(s)`.
def reTest (r : RE) (s : Str) : Bool := countMatches r s != 0

-- Leftmost match position and length, if any.
def findMatchAt (r : RE) : Nat → Option Char → Str → Option (Nat × Nat)
  | 0, _, _ => none
  | fuel + 1, pv, s =>
    match reMatch r pv s with
    | (_, s2) :: _ => some (0, s.length - s2.length)
    | [] =>
      match s with
      | [] => none
      | c :: t => (findMatchAt r fuel (some c) t).map (fun q => (q.1 + 1, q.2))

-- `s.replace(r, repl)` for a non-global regex (first match only; the
-- replacement string is taken literally, as in the analysed code where
-- `$1` has no matching capture group).
def replaceFirst (r : RE) (repl s : Str) : Str :=
  match findMatchAt r (s.length + 1) none s with
  | none => s
  | some (i, len) => s.take i ++ repl ++ s.drop (i + len)

-- `s.replace(r, repl)` for a global regex.
def replaceAllAux (r : RE) (repl : Str) : Nat → Option Char → Str → Str
  | 0, _, s => s
  | fuel + 1, pv, s =>
    match reMatch r pv s with
    | (pv2, s2) :: _ =>
      if s2.length < s.length then repl ++ replaceAllAux r repl fuel pv2 s2
      else
        match s with
        | [] => repl
        | c :: t => repl ++ c :: replaceAllAux r repl fuel (some c) t
    | [] =>
      match s with
      | [] => []
      | c :: t => c :: replaceAllAux r repl fuel (some c) t

def replaceAll (r : RE) (repl s : Str) : Str := replaceAllAux r repl (s.length + 1) none s

-- Smart constructors for assembling the source's regexes.
def L (s : String) : RE := RE.lit s.data

def Li (s : String) : RE := RE.liti s.data

def cat (rs : List RE) : RE := rs.foldr RE.seq (RE.lit [])

def alt3 (a b c : RE) : RE := RE.alt a (RE.alt b c)

-- ===== ZigCodeAnalyzer (src/utils.ts) =====

namespace ZigCodeAnalyzer

-- MEMORY_PATTERNS.heapAlloc: /std\.(ArrayList|StringHashMap|AutoHashMap)/g
def heapAllocPattern : RE :=
  RE.seq (L ("std.")) (alt3 (L ("ArrayList")) (L ("StringHashMap")) (L ("AutoHashMap")))

-- MEMORY_PATTERNS.stackAlloc: /var\s+\w+\s*:\s*\[(\d+)\]/g
def stackAllocPattern : RE :=
  cat [L ("var"), RE.plus jsWhitespace, RE.plus jsWordChar, RE.star jsWhitespace,
    L (":"), RE.star jsWhitespace, L ("["), RE.plus jsDigit, L ("]")]

-- MEMORY_PATTERNS.slices: /\[\](?:u8|i32|f64)/g
def slicesPattern : RE := RE.seq (L ("[]")) (alt3 (L ("u8")) (L ("i32")) (L ("f64")))

-- TIME_COMPLEXITY_PATTERNS.loops: /(?:while|for)\s*\(/g
def loopsPattern : RE :=
  cat [RE.alt (L ("while")) (L ("for")), RE.star jsWhitespace, L ("(")]

-- TIME_COMPLEXITY_PATTERNS.nestedLoops: /(?:while|for)[^{]*\{[^}]*(?:while|for)/g
def nestedLoopsPattern : RE :=
  cat [RE.alt (L ("while")) (L ("for")), RE.star (notChar lbrace), RE.lit [lbrace],
    RE.star (notChar rbrace), RE.alt (L ("while")) (L ("for"))]

-- TIME_COMPLEXITY_PATTERNS.recursion: /fn\s+\w+[^{]*\{[^}]*\w+\s*\([^)]*\)/g
def recursionPattern : RE :=
  cat [L ("fn"), RE.plus jsWhitespace, RE.plus jsWordChar, RE.star (notChar lbrace),
    RE.lit [lbrace], RE.star (notChar rbrace), RE.plus jsWordChar, RE.star jsWhitespace,
    L ("("), RE.star (notChar ')'), L (")")]

-- ALLOCATION_PATTERNS.comptime: /comptime\s/g
def comptimePattern : RE := RE.seq (L ("comptime")) (RE.cls jsWhitespace)

-- ALLOCATION_PATTERNS.arena: /std\.heap\.ArenaAllocator/g
def arenaPattern : RE := L ("std.heap.ArenaAllocator")

-- ALLOCATION_PATTERNS.fixedBuf: /std\.heap\.FixedBufferAllocator/g
def fixedBufPattern : RE := L ("std.heap.FixedBufferAllocator")

def analyzeMemoryUsage (code : Str) : Str :=
  let heapAllocs := countMatches heapAllocPattern code
  let stackAllocs := countMatches stackAllocPattern code
  let sliceUsage := countMatches slicesPattern code
  trimStr (str ("\n- Heap Allocations: ") ++ natStr heapAllocs ++
    str (" detected\n- Stack Allocations: ") ++ natStr stackAllocs ++
    str (" detected\n- Slice Usage: ") ++ natStr sliceUsage ++
    str (" instances\n- Memory Profile: ") ++
    (if heapAllocs > stackAllocs then str ("Heap-heavy") else str ("Stack-optimized")) ++
    str ("\n    "))

-- The `complexity` value computed by `analyzeTimeComplexity`.
def timeComplexityLabel (code : Str) : Str :=
  let loops := countMatches loopsPattern code
  let nestedLoops := countMatches nestedLoopsPattern code
  let recursion := countMatches recursionPattern code
  let complexity :=
    if nestedLoops > 0 then str ("O(n²)")
    else if loops > 0 then str ("O(n)")
    else str ("O(1)")
  if recursion > 0 then complexity ++ str (" with recursive calls") else complexity

def analyzeTimeComplexity (code : Str) : Str :=
  let loops := countMatches loopsPattern code
  let nestedLoops := countMatches nestedLoopsPattern code
  let recursion := countMatches recursionPattern code
  trimStr (str ("\n- Estimated Complexity: ") ++ timeComplexityLabel code ++
    str ("\n- Loop Count: ") ++ natStr loops ++
    str ("\n- Nested Loops: ") ++ natStr nestedLoops ++
    str ("\n- Recursive Patterns: ") ++ natStr recursion ++
    str (" detected\n    "))

def determineAllocStrategy (arenaCount fixedBufCount : Nat) : Str :=
  if arenaCount > 0 ∧ fixedBufCount > 0 then str ("Mixed allocation strategy")
  else if arenaCount > 0 then str ("Arena-based allocation")
  else if fixedBufCount > 0 then str ("Fixed buffer allocation")
  else str ("Default allocator usage")

-- The allocation-strategy label produced inside `analyzeAllocations`.
def allocationStrategyOf (code : Str) : Str :=
  determineAllocStrategy (countMatches arenaPattern code) (countMatches fixedBufPattern code)

def analyzeAllocations (code : Str) : Str :=
  let comptimeUsage := countMatches comptimePattern code
  let arenaAlloc := countMatches arenaPattern code
  let fixedBufAlloc := countMatches fixedBufPattern code
  trimStr (str ("\n- Comptime Evaluations: ") ++ natStr comptimeUsage ++
    str ("\n- Arena Allocators: ") ++ natStr arenaAlloc ++
    str ("\n- Fixed Buffer Allocators: ") ++ natStr fixedBufAlloc ++
    str ("\n- Allocation Strategy: ") ++ determineAllocStrategy arenaAlloc fixedBufAlloc ++
    str ("\n    "))

end ZigCodeAnalyzer

-- ===== ZigCodeGenerator (src/utils.ts) =====

structure CodeGenerationRequirements where
  features : List Str
  errorHandling : Bool
  testing : Bool
  performance : Bool
deriving Repr, DecidableEq

namespace ZigCodeGenerator

def featureKeywords : List Str :=
  [str ("create"), str ("implement"), str ("build"), str ("function"),
   str ("struct"), str ("type"), str ("enum"), str ("union")]

def errorHandlingKeywords : List Str :=
  [str ("error"), str ("handle"), str ("catch"), str ("try"), str ("fail")]

def testingKeywords : List Str :=
  [str ("test"), str ("verify"), str ("check"), str ("validate")]

def performanceKeywords : List Str :=
  [str ("fast"), str ("optimize"), str ("performance"), str ("efficient"), str ("speed")]

-- `[prompt, context].filter(Boolean).join(' ').toLowerCase()`
def fullTextOf (prompt : Str) (context : Option Str) : Str :=
  let parts := ([some prompt, context].filterMap (fun x => x)).filter (fun s => !s.isEmpty)
  toLowerCase (joinSep ' ' parts)

-- The `words.forEach(add-if-included)` loop over the feature category
-- adds exactly the keywords occurring in the search text, in table
-- order; the surrounding `words.some` guard is kept.
def parseRequirements (prompt : Str) (context : Option Str) : CodeGenerationRequirements :=
  let fullText := fullTextOf prompt context
  { features :=
      if featureKeywords.any (fun w => includes fullText w) then
        featureKeywords.filter (fun w => includes fullText w)
      else []
    errorHandling := errorHandlingKeywords.any (fun w => includes fullText w)
    testing := testingKeywords.any (fun w => includes fullText w)
    performance := performanceKeywords.any (fun w => includes fullText w) }

def generateStruct (requirements : CodeGenerationRequirements) : Str :=
  let errorReturn := if requirements.errorHandling then str ("Error!") else str ("")
  str ("pub const MyStruct = struct \x7b\n    data: []const u8,\n    allocator: std.mem.Allocator,\n    capacity: usize,\n\n    const Self = @This();\n\n    /// Initialize a new instance\n    pub fn init(allocator: std.mem.Allocator) ") ++
  errorReturn ++
  str ("Self \x7b\n        return Self\x7b\n            .data = &[_]u8\x7b\x7d,\n            .allocator = allocator,\n            .capacity = 0,\n        \x7d;\n    \x7d\n\n    /// Clean up resources\n    pub fn deinit(self: *Self) void \x7b\n        if (self.data.len > 0) \x7b\n            self.allocator.free(self.data);\n        \x7d\n    \x7d\n\n    /// Process data\n    pub fn process(self: *Self, input: []const u8) ") ++
  errorReturn ++
  str ("void \x7b\n        ") ++
  (if requirements.errorHandling then str ("if (input.len == 0) return Error.InvalidInput;") else str ("")) ++
  str ("\n        // Implementation here\n        _ = self;\n    \x7d\n\x7d;")

def generateEnum (requirements : CodeGenerationRequirements) : Str :=
  str ("pub const MyEnum = enum \x7b\n    variant_a,\n    variant_b,\n    variant_c,\n\n    const Self = @This();\n\n    /// Convert to string representation\n    pub fn toString(self: Self) []const u8 \x7b\n        return switch (self) \x7b\n            .variant_a => \"Variant A\",\n            .variant_b => \"Variant B\", \n            .variant_c => \"Variant C\",\n        \x7d;\n    \x7d\n\n    /// Parse from string\n    pub fn fromString(str: []const u8) ") ++
  (if requirements.errorHandling then str ("Error!") else str ("?")) ++
  str ("Self \x7b\n        if (std.mem.eql(u8, str, \"variant_a\")) return .variant_a;\n        if (std.mem.eql(u8, str, \"variant_b\")) return .variant_b;\n        if (std.mem.eql(u8, str, \"variant_c\")) return .variant_c;\n        return ") ++
  (if requirements.errorHandling then str ("Error.InvalidInput") else str ("null")) ++
  str (";\n    \x7d\n\x7d;")

def generateUnion (_requirements : CodeGenerationRequirements) : Str :=
  str ("pub const MyUnion = union(enum) \x7b\n    integer: i32,\n    float: f64,\n    string: []const u8,\n\n    const Self = @This();\n\n    /// Get type tag as string\n    pub fn getTypeName(self: Self) []const u8 \x7b\n        return switch (self) \x7b\n            .integer => \"integer\",\n            .float => \"float\",\n            .string => \"string\",\n        \x7d;\n    \x7d\n\n    /// Format for printing\n    pub fn format(\n        self: Self,\n        comptime fmt: []const u8,\n        options: std.fmt.FormatOptions,\n        writer: anytype,\n    ) !void \x7b\n        _ = fmt;\n        _ = options;\n        \n        switch (self) \x7b\n            .integer => |val| try writer.print(\"\x7bd\x7d\", .\x7bval\x7d),\n            .float => |val| try writer.print(\"\x7bd\x7d\", .\x7bval\x7d),\n            .string => |val| try writer.print(\"\x7bs\x7d\", .\x7bval\x7d),\n        \x7d\n    \x7d\n\x7d;")

def generateFunction (requirements : CodeGenerationRequirements) : Str :=
  let fnHeader :=
    if requirements.errorHandling then str ("pub fn process(input: []const u8) Error!void")
    else str ("pub fn process(input: []const u8) void")
  fnHeader ++ str (" \x7b\n    ") ++
  (if requirements.errorHandling then str ("if (input.len == 0) return Error.InvalidInput;") else str ("")) ++
  str ("\n    \n    // Process the input\n    for (input, 0..) |byte, i| \x7b\n        // Example processing logic\n        _ = byte;\n        _ = i;\n    \x7d\n    \n    ") ++
  (if requirements.performance then str ("// Optimized for performance\n    // Consider using SIMD operations for large datasets") else str ("")) ++
  str ("\n\x7d")

def generateTests (requirements : CodeGenerationRequirements) : Str :=
  str ("test \"basic functionality\" \x7b\n    ") ++
  (if requirements.errorHandling then str ("try testing.expectError(Error.InvalidInput, process(\"\"));") else str ("")) ++
  str ("\n    \n    // Test normal operation\n    try process(\"test input\");\n    \n    // Add more comprehensive test cases\n    try testing.expect(true); // Placeholder assertion\n\x7d\n\ntest \"edge cases\" \x7b\n    // Test edge cases\n    try process(\"\");\n    try testing.expect(true); // Placeholder assertion\n\x7d")

def generateZigCode (requirements : CodeGenerationRequirements) : Str :=
  let hasFeature := fun (feature : String) => requirements.features.contains feature.data
  let code0 := str ("//! Generated Zig code\n\n")
  let code1 := code0 ++ str ("const std = @import(\"std\");\n")
  let code2 := if requirements.testing then code1 ++ str ("const testing = std.testing;\n") else code1
  let code3 := code2 ++ str ("\n")
  let code4 :=
    if requirements.errorHandling then
      code3 ++ str ("const Error = error\x7b\n    InvalidInput,\n    OutOfMemory,\n    InvalidOperation,\n\x7d;\n\n")
    else code3
  let body :=
    if hasFeature ("struct") then generateStruct requirements
    else if hasFeature ("enum") then generateEnum requirements
    else if hasFeature ("union") then generateUnion requirements
    else if hasFeature ("function") || hasFeature ("implement") then generateFunction requirements
    else generateFunction requirements
  let code5 := code4 ++ body
  if requirements.testing then code5 ++ str ("\n\n") ++ generateTests requirements else code5

end ZigCodeGenerator

-- ===== Logger (src/utils.ts) =====

-- `Logger` writes to the console; the timestamp and the DEBUG
-- environment flag are the only per-invocation inputs.  Log output is
-- modelled as a returned list of lines so that the tool payloads can be
-- shown independent of it.

structure LogEnv where
  timestamp : Str
  debugEnabled : Bool

namespace Logger

def formatMessage (env : LogEnv) (level message : Str) : Str :=
  str ("[") ++ env.timestamp ++ str ("] [") ++ level ++ str ("] ") ++ message

def debugLine (env : LogEnv) (message : Str) : List Str :=
  if env.debugEnabled then [formatMessage env (str ("DEBUG")) message] else []

end Logger

-- ===== ZigBuildSystemHelper (src/zig-build.ts) =====

namespace ZigBuildSystemHelper

def analyzeBuildZig (buildZigContent : Str) : List Str :=
  let recommendations :=
    (if includes buildZigContent (str ("Builder")) then
       [str ("Update to new Build API: replace Builder with std.Build")] else []) ++
    (if includes buildZigContent (str ("setTarget")) then
       [str ("Use standardTargetOptions() instead of setTarget()")] else []) ++
    (if includes buildZigContent (str ("setBuildMode")) then
       [str ("Use standardOptimizeOption() instead of setBuildMode()")] else []) ++
    (if includes buildZigContent (str ("@import")) && includes buildZigContent (str ("build.zig")) then
       [str ("Consider using b.dependency() for external dependencies instead of @import()")] else []) ++
    (if includes buildZigContent (str (".\x7b .path = ")) && !includes buildZigContent (str ("b.path(")) then
       [str ("Modernize to Zig 0.14+: use b.path(\"file.zig\") instead of .\x7b .path = \"file.zig\" \x7d")] else []) ++
    (if includes buildZigContent (str (".addModule(")) && !includes buildZigContent (str ("root_module.addImport(")) then
       [str ("Modernize to Zig 0.14+: use exe.root_module.addImport() instead of exe.addModule()")] else []) ++
    (if includes buildZigContent (str ("linkLibrary")) && !includes buildZigContent (str ("root_module.addImport")) then
       [str ("Consider using root_module.addImport() for modern module dependencies")] else []) ++
    (if !includes buildZigContent (str ("standardTargetOptions")) then
       [str ("Add standardTargetOptions() for cross-compilation support")] else []) ++
    (if !includes buildZigContent (str ("standardOptimizeOption")) then
       [str ("Add standardOptimizeOption() for build mode selection")] else []) ++
    (if !includes buildZigContent (str ("addTest")) then
       [str ("Consider adding test step with addTest()")] else []) ++
    (if !includes buildZigContent (str ("installArtifact")) then
       [str ("Use installArtifact() to install built executables/libraries")] else []) ++
    (if !includes buildZigContent (str ("getEmittedDocs")) then
       [str ("Add documentation generation with getEmittedDocs() and addInstallDirectory()")] else [])
  if recommendations.length > 0 then recommendations
  else [str ("Build file follows modern Zig patterns")]

end ZigBuildSystemHelper

-- ===== ZigMcpServer tool methods (src/index.ts) =====

namespace ZigMcpServer

-- /while\s*\(true\)/
def whileTruePattern : RE := cat [L ("while"), RE.star jsWhitespace, L ("(true)")]

-- /for\s*\([^)]*\)\s*\{[^}]*std\.fmt\.print/
def printInLoopPattern : RE :=
  cat [L ("for"), RE.star jsWhitespace, L ("("), RE.star (notChar ')'), L (")"),
    RE.star jsWhitespace, RE.lit [lbrace], RE.star (notChar rbrace), L ("std.fmt.print")]

-- /for\s*\([^)]*\)\s*\|[^|]*\|\s*{[^}]*[+\-*/][^}]*}/
def simdLoopPattern : RE :=
  cat [L ("for"), RE.star jsWhitespace, L ("("), RE.star (notChar ')'), L (")"),
    RE.star jsWhitespace, L ("|"), RE.star (notChar '|'), L ("|"), RE.star jsWhitespace,
    RE.lit [lbrace], RE.star (notChar rbrace),
    RE.cls (fun c => c == '+' || c == '-' || c == '*' || c == '/'),
    RE.star (notChar rbrace), RE.lit [rbrace]]

-- /const\s+\w+\s*=\s*\d+/
def constMathPattern : RE :=
  cat [L ("const"), RE.plus jsWhitespace, RE.plus jsWordChar, RE.star jsWhitespace,
    L ("="), RE.star jsWhitespace, RE.plus jsDigit]

-- /fn\s+\w+[^{]*{[^}]{1,50}}/
def smallFnPattern : RE :=
  cat [L ("fn"), RE.plus jsWhitespace, RE.plus jsWordChar, RE.star (notChar lbrace),
    RE.lit [lbrace], RE.repRange (notChar rbrace) 1 50, RE.lit [rbrace]]

-- /std\.ArrayList\([^)]+\)\.init\([^)]+\)/
def arrayListInitPattern : RE :=
  cat [L ("std.ArrayList("), RE.plus (notChar ')'), L (").init("),
    RE.plus (notChar ')'), L (")")]

-- `buildModeOpts[level]` — the `as const` object has exactly four own
-- properties; every other key yields `undefined` (no own or inherited
-- property of `Object.prototype` is an array), so the subsequent `.map`
-- call throws a TypeError, modelled by `none` in `optimizeCode`.
def buildModeOpts (level : Str) : Option (List Str) :=
  if level == str ("Debug") then
    some [str ("Debug symbols enabled"), str ("Runtime safety checks enabled"),
      str ("No optimizations - fastest compile time")]
  else if level == str ("ReleaseSafe") then
    some [str ("Runtime safety checks enabled"), str ("Optimizations enabled"),
      str ("Good balance of safety and performance")]
  else if level == str ("ReleaseFast") then
    some [str ("Runtime safety checks disabled"), str ("Maximum performance optimizations"),
      str ("Consider adding debug assertions for critical paths"),
      str ("Use @setRuntimeSafety(true) for critical sections if needed")]
  else if level == str ("ReleaseSmall") then
    some [str ("Size optimizations enabled"), str ("Consider removing debug information"),
      str ("Minimize template instantiations"),
      str ("Use packed structs to reduce memory footprint")]
  else none

def generateOptimizedCodeSuggestions (code : Str) (level : Str) : Str :=
  let optimizedCode := code
  let optimizedCode :=
    if includes optimizedCode (str ("std.ArrayList")) && !includes optimizedCode (str ("initCapacity")) then
      replaceFirst arrayListInitPattern
        (str ("std.ArrayList($1).initCapacity(allocator, expected_capacity)")) optimizedCode
    else optimizedCode
  if level == str ("ReleaseFast") && !includes optimizedCode (str ("@setRuntimeSafety")) then
    str ("// Consider adding runtime safety for critical sections:\n// @setRuntimeSafety(true);\n\n") ++ optimizedCode
  else optimizedCode

-- `optimizeCode`; a `none` result models the TypeError thrown when
-- `buildModeOpts[level]` is `undefined`.
def optimizeCode (code : Str) (level : Str) : Option Str :=
  let optimizations :=
    (if includes code (str ("std.ArrayList")) then
       [str ("Consider pre-allocating ArrayList capacity if size is known"),
        str ("Use ArrayListUnmanaged for better cache locality and reduced indirection")] else []) ++
    (if includes code (str ("std.fmt.allocPrint")) then
       [str ("Consider using std.fmt.bufPrint for stack allocation when possible")] else []) ++
    (if reTest whileTruePattern code then
       [str ("Consider using labeled breaks instead of while(true)")] else []) ++
    (if includes code (str ("@intCast")) && !includes code (str ("try")) then
       [str ("Use safe integer casting: try std.math.cast() instead of @intCast")] else []) ++
    (if reTest printInLoopPattern code then
       [str ("Avoid I/O operations in hot loops for better performance")] else []) ++
    (if reTest simdLoopPattern code then
       [str ("Consider using @Vector for SIMD operations on numeric arrays")] else []) ++
    (if includes code (str ("[]f32")) || includes code (str ("[]f64")) then
       [str ("Float arrays can benefit from vectorized operations using @Vector")] else []) ++
    (if reTest constMathPattern code then
       [str ("Move constant calculations to comptime using comptime var")] else []) ++
    (if includes code (str ("std.crypto")) || includes code (str ("std.hash")) then
       [str ("Consider comptime evaluation for constant hash/crypto operations")] else []) ++
    (if includes code (str ("struct \x7b")) then
       [str ("Consider using packed struct for memory efficiency if appropriate"),
        str ("Order struct fields by size (largest first) for optimal packing")] else []) ++
    (if reTest smallFnPattern code then
       [str ("Consider @inline for small hot functions (under ~50 lines)")] else []) ++
    (if includes code (str ("std.math")) then
       [str ("Use builtin math functions like @sqrt, @sin, @cos for better performance")] else []) ++
    (if includes code (str ("std.HashMap")) then
       [str ("Consider ArrayHashMap for better cache locality with small datasets"),
        str ("Use HashMap.initWithContext for custom hash/equality functions")] else []) ++
    (if includes code (str ("std.MultiArrayList")) then
       [str ("MultiArrayList provides better cache efficiency for struct-of-arrays pattern")] else [])
  match buildModeOpts level with
  | none => none
  | some modeSpecificOpts =>
    some (trimStr (
      str ("\n# Optimization Analysis for ") ++ level ++
      str ("\n\n## General Optimizations:\n") ++
      (if optimizations.length > 0 then
         joinNL (optimizations.map (fun opt => str ("- ") ++ opt))
       else str ("- No immediate optimization opportunities detected")) ++
      str ("\n\n## Build Mode Specific:\n") ++
      joinNL (modeSpecificOpts.map (fun opt => str ("- ") ++ opt)) ++
      str ("\n\n## Modern Zig Patterns to Consider:\n- Use comptime for compile-time computations\n- Leverage Zig's zero-cost abstractions\n- Consider using packed structs for memory efficiency\n- Use defer for automatic cleanup\n- Implement proper error handling with error unions\n\n## Optimized Code Suggestions:\n```zig\n") ++
      generateOptimizedCodeSuggestions code level ++
      str ("\n```\n    ")))

-- The CallTool handler: `(args.optimizationLevel as OptimizationLevel)
-- ?? 'ReleaseSafe'` applies the default only when the argument is
-- absent; a present string is passed through unvalidated.
def optimizeCodeTool (code : Str) (optimizationLevel : Option Str) : Option Str :=
  optimizeCode code (optimizationLevel.getD (str ("ReleaseSafe")))

def estimateComputeUnits (code : Str) : Str :=
  trimStr (str ("\n# Compute Units Estimation\n\n## Memory Usage:\n") ++
    ZigCodeAnalyzer.analyzeMemoryUsage code ++
    str ("\n\n## Time Complexity:\n") ++
    ZigCodeAnalyzer.analyzeTimeComplexity code ++
    str ("\n\n## Allocation Analysis:\n") ++
    ZigCodeAnalyzer.analyzeAllocations code ++
    str ("\n\n## Recommendations:\n- Consider using arena allocators for batch allocations\n- Profile memory usage with --enable-logging\n- Use comptime evaluation to reduce runtime overhead\n- Consider memory pool allocation for frequent allocations\n    "))

-- The allocator patterns of the server's private `analyzeAllocations`
-- (src/index.ts); that method is not reachable from
-- `estimate_compute_units`, which calls `ZigCodeAnalyzer`, but its
-- patterns name the general-purpose and page allocator kinds.
def gpaPattern : RE := L ("std.heap.GeneralPurposeAllocator")

def pageAllocPattern : RE := L ("std.heap.page_allocator")

def generateCodeText (prompt : Str) (context : Option Str) : Str :=
  let requirements := ZigCodeGenerator.parseRequirements prompt context
  let code := ZigCodeGenerator.generateZigCode requirements
  trimStr (str ("\n# Generated Zig Code\n\n") ++ code ++
    str ("\n\n## Generation Notes:\n- Code follows modern Zig patterns and style guide\n- Includes comprehensive error handling where appropriate\n- Uses comptime optimizations when beneficial\n- Includes basic tests and documentation\n- Follows zero-cost abstraction principles\n\n## Next Steps:\n1. Review and customize the generated code for your specific needs\n2. Add comprehensive tests\n3. Consider performance implications for your use case\n4. Add proper documentation comments\n    "))

-- `generateCode` with its `Logger.debug` side effect made explicit: the
-- first component is the console output, the second the tool payload.
def generateCode (env : LogEnv) (prompt : Str) (context : Option Str) : List Str × Str :=
  (Logger.debugLine env (str ("Generating code for prompt: ") ++ prompt),
   generateCodeText prompt context)

end ZigMcpServer

-- ===== ZigStyleChecker (src/utils.ts) =====

def pushIf (c : Bool) (msg : Str) : List Str := if c then [msg] else []

-- One `result.push(header, ...items, '')` block (`pad` is false for the
-- last section, which is pushed without the trailing blank line).
def sectionBlock (header : Str) (items : List Str) (pad : Bool) : List Str :=
  if items.isEmpty then [] else header :: (items ++ if pad then [([] : Str)] else [])

def combineSections (blocks : List (Str × List Str × Bool)) : List Str :=
  (blocks.map (fun b => sectionBlock b.1 b.2.1 b.2.2)).flatten

-- The common ending `if (result.length === 0) return fallback; ...;
-- return result.join('\n')` with `extras` the lines pushed after the
-- emptiness check.
def finishWithFallback (blocks : List (Str × List Str × Bool)) (extras : List Str)
    (fallback : Str) : Str :=
  let result := combineSections blocks
  if result.isEmpty then fallback else joinNL (result ++ extras)

-- `result || fallback` on a string result.
def orDefault (result fallback : Str) : Str :=
  if result.isEmpty then fallback else result

def indexOfSub (s pat : Str) : Option Nat :=
  match s with
  | [] => if pat.isEmpty then some 0 else none
  | c :: t => if pat.isPrefixOf (c :: t) then some 0 else (indexOfSub t pat).map (fun n => n + 1)

namespace ZigStyleChecker

-- /\b[a-z]+[A-Z][a-zA-Z]*\s*[=:]/g
def badVariableNamesPattern : RE :=
  cat [RE.wb, RE.plus (fun c => 97 ≤ c.toNat && c.toNat ≤ 122),
    RE.cls (fun c => 65 ≤ c.toNat && c.toNat ≤ 90),
    RE.star (fun c => (97 ≤ c.toNat && c.toNat ≤ 122) || (65 ≤ c.toNat && c.toNat ≤ 90)),
    RE.star jsWhitespace, RE.cls (fun c => c == '=' || c == ':')]

-- /\b[A-Z][a-z]+(?:[A-Z][a-z]+)*\s*[=:]/g
def pascalCaseVarsPattern : RE :=
  cat [RE.wb, RE.cls (fun c => 65 ≤ c.toNat && c.toNat ≤ 90),
    RE.plus (fun c => 97 ≤ c.toNat && c.toNat ≤ 122),
    RE.starG (RE.seq (RE.cls (fun c => 65 ≤ c.toNat && c.toNat ≤ 90))
      (RE.plus (fun c => 97 ≤ c.toNat && c.toNat ≤ 122))),
    RE.star jsWhitespace, RE.cls (fun c => c == '=' || c == ':')]

-- /(?:pub\s+)?fn\s+[a-z]+[A-Z][a-zA-Z]*\s*\(/g
def badFunctionNamesPattern : RE :=
  cat [RE.optG (RE.seq (L ("pub")) (RE.plus jsWhitespace)),
    L ("fn"), RE.plus jsWhitespace,
    RE.plus (fun c => 97 ≤ c.toNat && c.toNat ≤ 122),
    RE.cls (fun c => 65 ≤ c.toNat && c.toNat ≤ 90),
    RE.star (fun c => (97 ≤ c.toNat && c.toNat ≤ 122) || (65 ≤ c.toNat && c.toNat ≤ 90)),
    RE.star jsWhitespace, L ("(")]

-- /(?:const|var)\s+[a-z][a-zA-Z]*\s*=\s*(?:struct|enum|union)/g
def badTypeNamesPattern : RE :=
  cat [RE.alt (L ("const")) (L ("var")), RE.plus jsWhitespace,
    RE.cls (fun c => 97 ≤ c.toNat && c.toNat ≤ 122),
    RE.star (fun c => (97 ≤ c.toNat && c.toNat ≤ 122) || (65 ≤ c.toNat && c.toNat ≤ 90)),
    RE.star jsWhitespace, L ("="), RE.star jsWhitespace,
    alt3 (L ("struct")) (L ("enum")) (L ("union"))]

-- /const\s+[a-z][a-z_]*\s*[=:]/g
def constantPatternsPattern : RE :=
  cat [L ("const"), RE.plus jsWhitespace,
    RE.cls (fun c => 97 ≤ c.toNat && c.toNat ≤ 122),
    RE.star (fun c => (97 ≤ c.toNat && c.toNat ≤ 122) || c == '_'),
    RE.star jsWhitespace, RE.cls (fun c => c == '=' || c == ':')]

-- /\s+$/ (applied per line)
def trailingWsPattern : RE := RE.seq (RE.plus jsWhitespace) RE.eolA

-- /pub\s+fn\s+\w+/g
def publicFunctionsPattern : RE :=
  cat [L ("pub"), RE.plus jsWhitespace, L ("fn"), RE.plus jsWhitespace, RE.plus jsWordChar]

-- /\/\/[!/][^\n]*/g
def docCommentsPattern : RE :=
  cat [L ("//"), RE.cls (fun c => c == '!' || c == '/'), RE.star (notChar '\n')]

-- /^\/\/!/m
def moduleDocPattern : RE := RE.seq RE.bolM (L ("//!"))

-- /\w[+\-*/%=!<>]+\w/g
def badOperatorSpacingPattern : RE :=
  cat [RE.cls jsWordChar,
    RE.plus (fun c => c == '+' || c == '-' || c == '*' || c == '/' || c == '%' ||
      c == '=' || c == '!' || c == '<' || c == '>'),
    RE.cls jsWordChar]

-- /,\w/g
def badCommaSpacingPattern : RE := RE.seq (L (",")) (RE.cls jsWordChar)

-- /;\s*$/gm
def unnecessarySemicolonsPattern : RE := cat [L (";"), RE.star jsWhitespace, RE.eolM]

-- /\{\s*\n/g
def openBraceNewlinePattern : RE := cat [RE.lit [lbrace], RE.star jsWhitespace, L ("\n")]

-- /\S\s*\{/g
def openBraceSameLinePattern : RE :=
  cat [RE.cls (fun c => !jsWhitespace c), RE.star jsWhitespace, RE.lit [lbrace]]

-- /\/\/\s*(TODO|FIXME|XXX|HACK|BUG)/gi
def todoCommentsPattern : RE :=
  cat [L ("//"), RE.star jsWhitespace,
    RE.alt (Li ("todo")) (RE.alt (Li ("fixme")) (alt3 (Li ("xxx")) (Li ("hack")) (Li ("bug"))))]

-- /\/\/\s*$/gm
def emptyCommentsPattern : RE := cat [L ("//"), RE.star jsWhitespace, RE.eolM]

-- /\[\]u8\{/g
def oldArraySyntaxPattern : RE := L ("[]u8\x7b")

-- /^[\s]*\t[\s]*/ and /^[\s]*\t/ (applied per line)
def indentTabPatternA : RE :=
  cat [RE.bolA, RE.star jsWhitespace, L ("\t"), RE.star jsWhitespace]

def indentTabPatternB : RE := cat [RE.bolA, RE.star jsWhitespace, L ("\t")]

-- /@import\([^)]+\)/g
def importPattern : RE := cat [L ("@import("), RE.plus (notChar ')'), L (")")]

-- /\/\/[^\n]*\n?/g
def lineCommentPattern : RE :=
  cat [L ("//"), RE.star (notChar '\n'), RE.optc (fun c => c == '\n')]

def checkIndentation (lines : List Str) : List Str :=
  let inconsistentIndent := lines.any (fun line =>
    if trimStr line == ([] : Str) then false
    else
      let indent := (line.takeWhile jsWhitespace).length
      (reTest indentTabPatternA line || reTest indentTabPatternB line) ||
      (indent % 4 != 0 && indent > 0))
  if inconsistentIndent then [str ("- Use consistent 4-space indentation")] else []

def checkDeprecatedPatterns (code : Str) : List Str :=
  pushIf (includes code (str (".setTarget(")))
    (str ("- Replace .setTarget() with target parameter in addExecutable()")) ++
  pushIf (includes code (str (".setBuildMode(")))
    (str ("- Replace .setBuildMode() with optimize parameter in addExecutable()")) ++
  pushIf (includes code (str ("std.build.Builder")))
    (str ("- Replace std.build.Builder with *std.Build in Zig 0.12+")) ++
  pushIf (includes code (str (".\x7b .path = ")) && !includes code (str ("b.path(")))
    (str ("- Modernize to Zig 0.15.2+: use b.path(\"file.zig\") instead of .\x7b .path = \"file.zig\" \x7d")) ++
  pushIf (includes code (str (".addModule(")) && !includes code (str ("root_module")))
    (str ("- Modernize to Zig 0.15.2+: use .root_module.addImport() instead of .addModule()")) ++
  pushIf (includes code (str ("@import(\"build_options\")")))
    (str ("- Consider using @import(\"config\") for build options in modern Zig")) ++
  pushIf (includes code (str ("std.fmt.allocPrintZ")))
    (str ("- Consider using std.fmt.allocPrint with explicit null termination"))

-- When `imports.length > 1` the literal `@import` occurs in `code`, so
-- `indexOf` is non-negative; the `getD 0` default is unreachable.
def analyzeImports (code : Str) : List Str :=
  let imports := matchTexts importPattern code
  if imports.length > 1 then
    let firstImportIndex := (indexOfSub code (str ("@import"))).getD 0
    let nonCommentCodeBefore :=
      trimStr (replaceAll lineCommentPattern [] (code.take firstImportIndex))
    if nonCommentCodeBefore.length > 0 then [str ("- Move imports to the top of the file")]
    else []
  else []

def analyzeCodeStyle (code : Str) : Str :=
  let lines := splitLines code
  let badVariableNames := countMatches badVariableNamesPattern code
  let pascalCaseVars := countMatches pascalCaseVarsPattern code
  let badFunctionNames := countMatches badFunctionNamesPattern code
  let badTypeNames := countMatches badTypeNamesPattern code
  let constantPatterns := countMatches constantPatternsPattern code
  let trailingWhitespaceLines :=
    (lines.enum.filter (fun p => reTest trailingWsPattern p.2 && p.1 < lines.length - 1)).length
  let tabLines := (lines.filter (fun line => includes line (str ("\t")))).length
  let longLines := (lines.filter (fun line => line.length > 100)).length
  let veryLongLines := (lines.filter (fun line => line.length > 120)).length
  let publicFunctions := countMatches publicFunctionsPattern code
  let docComments := countMatches docCommentsPattern code
  let badOperatorSpacing := countMatches badOperatorSpacingPattern code
  let badCommaSpacing := countMatches badCommaSpacingPattern code
  let unnecessarySemicolons := countMatches unnecessarySemicolonsPattern code
  let openBraceNewline := countMatches openBraceNewlinePattern code
  let openBraceSameLine := countMatches openBraceSameLinePattern code
  let todoComments := countMatches todoCommentsPattern code
  let emptyComments := countMatches emptyCommentsPattern code
  let oldArraySyntax := countMatches oldArraySyntaxPattern code
  let issues :=
    pushIf (badVariableNames > 0)
      (str ("- Use snake_case for variables: found ") ++ natStr badVariableNames ++
        str (" camelCase variables")) ++
    pushIf (pascalCaseVars > 0)
      (str ("- Use snake_case for variables: found ") ++ natStr pascalCaseVars ++
        str (" PascalCase variables")) ++
    pushIf (badFunctionNames > 0)
      (str ("- Use snake_case for functions: found ") ++ natStr badFunctionNames ++
        str (" camelCase functions")) ++
    pushIf (badTypeNames > 0)
      (str ("- Use PascalCase for types: found ") ++ natStr badTypeNames ++
        str (" incorrectly named types")) ++
    pushIf (trailingWhitespaceLines > 0)
      (str ("- Remove trailing whitespace: found on ") ++ natStr trailingWhitespaceLines ++
        str (" lines")) ++
    pushIf (tabLines > 0)
      (str ("- Use 4 spaces instead of tabs: found on ") ++ natStr tabLines ++ str (" lines")) ++
    checkIndentation lines ++
    pushIf (veryLongLines > 0)
      (str ("- Break very long lines: ") ++ natStr veryLongLines ++
        str (" lines exceed 120 characters")) ++
    pushIf (publicFunctions > 0 && (docComments == 0 || docComments < publicFunctions))
      (str ("- Add documentation for public functions: ") ++
        natStr (publicFunctions - docComments) ++ str (" functions lack doc comments")) ++
    checkDeprecatedPatterns code
  let warnings :=
    pushIf (constantPatterns > 0)
      (str ("- Consider SCREAMING_SNAKE_CASE for module-level constants: found ") ++
        natStr constantPatterns ++ str (" cases")) ++
    pushIf (longLines > 0)
      (str ("- Consider breaking long lines: ") ++ natStr longLines ++
        str (" lines exceed 100 characters")) ++
    pushIf (!reTest moduleDocPattern code)
      (str ("- Add module-level documentation with //! comment")) ++
    pushIf (badOperatorSpacing > 0)
      (str ("- Add spaces around operators: found ") ++ natStr badOperatorSpacing ++
        str (" instances")) ++
    pushIf (badCommaSpacing > 0)
      (str ("- Add space after commas: found ") ++ natStr badCommaSpacing ++
        str (" instances")) ++
    pushIf (openBraceNewline > 0 && openBraceSameLine > 0)
      (str ("- Use consistent brace placement (Zig prefers same-line opening braces)")) ++
    pushIf (todoComments > 0)
      (str ("- Address ") ++ natStr todoComments ++ str (" TODO/FIXME comments before production"))
  let suggestions :=
    pushIf (unnecessarySemicolons > 3)
      (str ("- Remove unnecessary semicolons: found ") ++ natStr unnecessarySemicolons ++
        str (" trailing semicolons")) ++
    pushIf (emptyComments > 0)
      (str ("- Remove ") ++ natStr emptyComments ++ str (" empty comment lines")) ++
    pushIf (oldArraySyntax > 0)
      (str ("- Use modern array literal syntax: found ") ++ natStr oldArraySyntax ++
        str (" old-style arrays")) ++
    analyzeImports code
  finishWithFallback
    [(str ("**Critical Issues:**"), issues, true),
     (str ("**Warnings:**"), warnings, true),
     (str ("**Suggestions:**"), suggestions, false)]
    [] (str ("✅ Code follows Zig style guidelines excellently"))

end ZigStyleChecker

namespace ZigStyleChecker

-- /allocator\.alloc.*allocator\.alloc/s
def multiAllocPattern : RE :=
  cat [L ("allocator.alloc"), RE.star jsAny, L ("allocator.alloc")]

-- /while\s*\(true\)/
def whileTruePattern : RE := cat [L ("while"), RE.star jsWhitespace, L ("(true)")]

-- /if\s*\([^)]*\)\s*\{[^}]*if\s*\(/g
def nestedIfPattern : RE :=
  cat [L ("if"), RE.star jsWhitespace, L ("("), RE.star (notChar ')'), L (")"),
    RE.star jsWhitespace, RE.lit [lbrace], RE.star (notChar rbrace),
    L ("if"), RE.star jsWhitespace, L ("(")]

-- /if\s*\([^)]*\)\s*\{[^}]*\}\s*else\s+if\s*\([^)]*\)\s*\{[^}]*\}\s*else\s+if/g
def ifElseChainsPattern : RE :=
  cat [L ("if"), RE.star jsWhitespace, L ("("), RE.star (notChar ')'), L (")"),
    RE.star jsWhitespace, RE.lit [lbrace], RE.star (notChar rbrace), RE.lit [rbrace],
    RE.star jsWhitespace, L ("else"), RE.plus jsWhitespace,
    L ("if"), RE.star jsWhitespace, L ("("), RE.star (notChar ')'), L (")"),
    RE.star jsWhitespace, RE.lit [lbrace], RE.star (notChar rbrace), RE.lit [rbrace],
    RE.star jsWhitespace, L ("else"), RE.plus jsWhitespace, L ("if")]

-- /try\s+\w+\([^)]*\);\s*return/
def errorPropagationPattern : RE :=
  cat [L ("try"), RE.plus jsWhitespace, RE.plus jsWordChar, L ("("),
    RE.star (notChar ')'), L (");"), RE.star jsWhitespace, L ("return")]

-- /==\s*"[^"]*"/
def stringComparisonPattern : RE :=
  cat [L ("=="), RE.star jsWhitespace, L ("\""), RE.star (notChar '"'), L ("\"")]

-- /switch\s*\([^)]*\)\s*\{[^}]*null[^}]*\}/
def switchNullPattern : RE :=
  cat [L ("switch"), RE.star jsWhitespace, L ("("), RE.star (notChar ')'), L (")"),
    RE.star jsWhitespace, RE.lit [lbrace], RE.star (notChar rbrace), L ("null"),
    RE.star (notChar rbrace), RE.lit [rbrace]]

-- /pub\s+(?:fn|const|var)/g
def exportCountPattern : RE :=
  cat [L ("pub"), RE.plus jsWhitespace, alt3 (L ("fn")) (L ("const")) (L ("var"))]

-- /(?:fn|const|var)\s+\w+/g
def declCountPattern : RE :=
  cat [alt3 (L ("fn")) (L ("const")) (L ("var")), RE.plus jsWhitespace, RE.plus jsWordChar]

-- /fn\s+\w+/g
def functionCountPattern : RE := cat [L ("fn"), RE.plus jsWhitespace, RE.plus jsWordChar]

def analyzePatterns (code : Str) : Str :=
  let nestedIfCount := countMatches nestedIfPattern code
  let ifElseChains := countMatches ifElseChainsPattern code
  let unreachableCount := countMatches (L ("unreachable")) code
  let comptimeUsage := countMatches (L ("comptime")) code
  let deferCount := countMatches (L ("defer")) code
  let exportCount := countMatches exportCountPattern code
  let privateCount : Int := (countMatches declCountPattern code : Int) - (exportCount : Int)
  let functionCount := countMatches functionCountPattern code
  let antiPatterns :=
    pushIf (includes code (str ("std.ArrayList")) && !includes code (str ("deinit")))
      (str ("- Missing deinit() for ArrayList - potential memory leak")) ++
    pushIf (includes code (str ("std.HashMap")) && !includes code (str ("deinit")))
      (str ("- Missing deinit() for HashMap - potential memory leak")) ++
    pushIf (includes code (str ("allocator.alloc")) && !includes code (str ("defer")) &&
        !includes code (str ("deinit")))
      (str ("- Raw allocations without defer or deinit - memory leak risk")) ++
    pushIf (reTest whileTruePattern code)
      (str ("- Infinite loops: use labeled breaks or better termination conditions")) ++
    pushIf (includes code (str ("@panic")))
      (str ("- Avoid @panic: use proper error handling with error unions")) ++
    pushIf (includes code (str ("unreachable")) && unreachableCount > 2)
      (str ("- Excessive unreachable usage (") ++ natStr unreachableCount ++
        str (") - review error handling")) ++
    pushIf (includes code (str ("!")) && !includes code (str ("try")) &&
        !includes code (str ("catch")))
      (str ("- Error union types without try/catch - potential runtime panics")) ++
    pushIf (includes code (str ("std.Thread")) && !includes code (str ("Mutex")))
      (str ("- Multi-threading without synchronization primitives - race condition risk"))
  let improvements :=
    (if includes code (str ("std.heap.ArenaAllocator")) then
       [str ("✓ Good: Using ArenaAllocator for batch memory management")]
     else if reTest multiAllocPattern code then
       [str ("- Consider ArenaAllocator for multiple related allocations")]
     else []) ++
    pushIf (nestedIfCount > 2)
      (str ("- Consider early returns to reduce nesting (") ++ natStr nestedIfCount ++
        str (" nested conditions)")) ++
    pushIf (ifElseChains > 0)
      (str ("- Consider switch statements for multiple conditions on same variable")) ++
    pushIf (reTest errorPropagationPattern code)
      (str ("✓ Good: Proper error propagation with try")) ++
    pushIf (includes code (str ("std.fmt.allocPrint")))
      (str ("- Consider std.fmt.bufPrint for stack-based formatting when size is known")) ++
    pushIf (reTest stringComparisonPattern code)
      (str ("- Use std.mem.eql(u8, str1, str2) for string comparisons")) ++
    pushIf (includes code (str ("inline fn")))
      (str ("- Review inline functions: ensure performance benefit justifies code size increase")) ++
    pushIf (includes code (str ("test ")) && !includes code (str ("testing.expect")))
      (str ("- Add assertions to tests with testing.expect* functions")) ++
    pushIf ((includes code (str ("@cImport")) || includes code (str ("extern"))) &&
        !includes code (str ("std.c.")))
      (str ("- Consider using std.c namespace for C library functions"))
  let modernPatterns :=
    pushIf (comptimeUsage > 0)
      (str ("✓ Excellent: Using comptime (") ++ natStr comptimeUsage ++
        str (" instances) for compile-time evaluation")) ++
    pushIf (includes code (str ("anytype")))
      (str ("✓ Good: Using generic programming with anytype")) ++
    pushIf (includes code (str ("@TypeOf")) || includes code (str ("@typeInfo")))
      (str ("✓ Advanced: Using type reflection for metaprogramming")) ++
    pushIf (includes code (str ("if (optional) |value|")))
      (str ("✓ Excellent: Using optional unwrapping with if-let syntax")) ++
    pushIf (reTest switchNullPattern code)
      (str ("✓ Good: Using switch for optional handling")) ++
    pushIf (deferCount > 0)
      (str ("✓ Excellent: Using defer (") ++ natStr deferCount ++
        str (" instances) for automatic cleanup")) ++
    pushIf (includes code (str ("packed struct")))
      (str ("✓ Good: Using packed structs for memory efficiency")) ++
    pushIf (includes code (str ("@Vector")) || includes code (str ("std.simd")))
      (str ("✓ Advanced: Using SIMD for vectorized operations")) ++
    pushIf (includes code (str ("async")) || includes code (str ("await")))
      (str ("✓ Advanced: Using async/await for concurrent programming")) ++
    pushIf (includes code (str ("@cImport")) || includes code (str ("extern")))
      (str ("✓ Advanced: Using C interoperability"))
  let architecturalConcerns :=
    pushIf ((exportCount : Int) > privateCount && exportCount > 5)
      (str ("- High public API surface - consider reducing exported symbols")) ++
    -- `avgLinesPerFunction > 50` compared exactly:
    -- lines/functionCount > 50 iff lines > 50 * functionCount.
    pushIf (functionCount > 0 && (splitLines code).length > 50 * functionCount)
      (str ("- Large functions detected - consider breaking into smaller units"))
  finishWithFallback
    [(str ("**Anti-patterns & Issues:**"), antiPatterns, true),
     (str ("**Improvement Opportunities:**"), improvements, true),
     (str ("**Modern Zig Patterns Detected:**"), modernPatterns, true),
     (str ("**Architectural Considerations:**"), architecturalConcerns, false)]
    [] (str ("✅ No significant pattern issues detected - code follows modern Zig idioms"))

end ZigStyleChecker

namespace ZigStyleChecker

-- /\[[^\]]*\]/g
def arrayAccessPattern : RE :=
  cat [L ("["), RE.star (notChar ']'), L ("]")]

-- /\[\w+\]/
def bracketWordPattern : RE := cat [L ("["), RE.plus jsWordChar, L ("]")]

-- /\/\s*\w+/
def divisionPattern : RE := cat [L ("/"), RE.star jsWhitespace, RE.plus jsWordChar]

-- /error\s*\{[^}]*\}/g
def errorTypesPattern : RE :=
  cat [L ("error"), RE.star jsWhitespace, RE.lit [lbrace], RE.star (notChar rbrace),
    RE.lit [rbrace]]

-- /\w+\.deinit\(\);[\s\S]*\w+\./
def useAfterFreePattern : RE :=
  cat [RE.plus jsWordChar, L (".deinit();"), RE.star jsAny, RE.plus jsWordChar, L (".")]

-- /[0-9.]+\s*==\s*[0-9.]+/
def floatEqPattern : RE :=
  cat [RE.plus (fun c => jsDigit c || c == '.'), RE.star jsWhitespace, L ("=="),
    RE.star jsWhitespace, RE.plus (fun c => jsDigit c || c == '.')]

-- /for\s*\([^)]*\+\+[^)]*\)/
def cStyleLoopPattern : RE :=
  cat [L ("for"), RE.star jsWhitespace, L ("("), RE.star (notChar ')'), L ("++"),
    RE.star (notChar ')'), L (")")]

-- /\.alloc\(|\.create\(/g
def allocCallsPattern : RE := RE.alt (L (".alloc(")) (L (".create("))

-- /\.free\(|\.destroy\(|deinit\(/g
def deallocCallsPattern : RE := alt3 (L (".free(")) (L (".destroy(")) (L ("deinit("))

def analyzeSafety (code : Str) : Str :=
  let arrayAccess := matchTexts arrayAccessPattern code
  let unsafeAccess := arrayAccess.filter (fun access =>
    (!includes access (str ("..")) && !includes access (str ("std.math.min")) &&
      includes access (str ("[i]"))) ||
    includes access (str ("[idx]")) || reTest bracketWordPattern access)
  let errorTypes := countMatches errorTypesPattern code
  let allocPatterns := countMatches allocCallsPattern code
  let deallocPatterns := countMatches deallocCallsPattern code
  let criticalIssues :=
    pushIf (includes code (str ("undefined")))
      (str ("- Undefined memory usage - initialize variables explicitly")) ++
    pushIf (includes code (str ("@ptrCast")))
      (str ("- Pointer casting detected - verify type safety and alignment")) ++
    pushIf (includes code (str ("@intToPtr")) || includes code (str ("@ptrToInt")))
      (str ("- Raw pointer/integer conversions - ensure memory safety")) ++
    pushIf (includes code (str ("@intCast")) && !includes code (str ("try")))
      (str ("- Unsafe integer casting - use std.math.cast() for safe conversions")) ++
    pushIf (includes code (str ("!void")) && !includes code (str ("try")))
      (str ("- Error-prone functions called without try/catch - potential crashes")) ++
    pushIf (includes code (str ("catch |err|")) && includes code (str ("unreachable")))
      (str ("- Catch-all with unreachable - may hide errors")) ++
    pushIf (allocPatterns > deallocPatterns + 1)
      (str ("- Potential memory leaks: ") ++ natStr allocPatterns ++
        str (" allocations vs ") ++ natStr deallocPatterns ++ str (" deallocations")) ++
    pushIf (includes code (str ("@setRuntimeSafety(false)")))
      (str ("- Runtime safety disabled - ensure this is necessary and well-tested"))
  let safetyWarnings :=
    pushIf (arrayAccess.length > 0 && !includes code (str ("bounds check")) &&
        unsafeAccess.length > 0)
      (str ("- Potential bounds violations: ") ++ natStr unsafeAccess.length ++
        str (" unchecked array accesses")) ++
    pushIf (includes code (str ("@alignCast")))
      (str ("- Alignment casting - verify target alignment requirements")) ++
    pushIf (includes code (str ("+%")) || includes code (str ("-%")) ||
        includes code (str ("*%")))
      (str ("- Wrapping arithmetic detected - ensure overflow behavior is intended")) ++
    pushIf (reTest divisionPattern code && !includes code (str ("!= 0")))
      (str ("- Division operations without zero checks")) ++
    pushIf (errorTypes > 0 && !includes code (str ("try")))
      (str ("- Error types defined but no error handling visible")) ++
    pushIf (includes code (str ("var ")) && includes code (str ("std.Thread")))
      (str ("- Shared mutable variables in multi-threaded context")) ++
    pushIf (reTest useAfterFreePattern code)
      (str ("- Potential use-after-free: operations after deinit()")) ++
    pushIf (includes code (str ("std.io.getStdIn")) && !includes code (str ("trim")))
      (str ("- User input without sanitization/validation")) ++
    pushIf (includes code (str ("std.fmt.bufPrint")) && !includes code (str (".len")))
      (str ("- Buffer operations without size validation")) ++
    pushIf (reTest floatEqPattern code &&
        (includes code (str ("f32")) || includes code (str ("f64"))))
      (str ("- Direct floating-point equality comparisons - use epsilon comparison")) ++
    pushIf (reTest cStyleLoopPattern code)
      (str ("- C-style loops with increment - prefer Zig range syntax")) ++
    pushIf (includes code (str ("std.crypto")) && includes code (str ("std.mem.eql")))
      (str ("- String comparison in crypto context - consider constant-time comparison")) ++
    pushIf (includes code (str ("@bitCast")) &&
        (includes code (str ("u16")) || includes code (str ("u32")) ||
         includes code (str ("u64"))))
      (str ("- Bit casting multi-byte integers - consider endianness implications"))
  let bestPractices :=
    pushIf (includes code (str ("std.atomic")))
      (str ("✓ Good: Using atomic operations for thread-safe access")) ++
    pushIf (includes code (str ("defer")) && includes code (str ("deinit")))
      (str ("✓ Excellent: Using defer for automatic cleanup")) ++
    pushIf (includes code (str ("std.crypto")) && includes code (str ("rand")))
      (str ("✓ Good: Using cryptographic random number generation")) ++
    pushIf (includes code (str ("@import(\"builtin\")")) && includes code (str ("os.tag")))
      (str ("✓ Good: Platform-aware code with proper OS detection")) ++
    pushIf (includes code (str ("// SAFETY:")))
      (str ("✓ Excellent: Documented safety assumptions with comments"))
  let securityConcerns :=
    pushIf (includes code (str ("std.Thread")) && !includes code (str ("std.Thread.Mutex")))
      (str ("- Multi-threading without synchronization - race condition risk")) ++
    pushIf (includes code (str ("std.fs.openFile")) && !includes code (str ("sanitize")))
      (str ("- File operations without path sanitization - directory traversal risk"))
  finishWithFallback
    [(str ("🚨 **Critical Safety Issues:**"), criticalIssues, true),
     (str ("🔒 **Security Concerns:**"), securityConcerns, true),
     (str ("⚠️ **Safety Warnings:**"), safetyWarnings, true),
     (str ("✅ **Safety Best Practices:**"), bestPractices, false)]
    [([] : Str), str ("📋 **General Safety Recommendations:**"),
     str ("- Use `zig build -Doptimize=Debug` during development for runtime safety checks"),
     str ("- Enable AddressSanitizer: `zig build -Doptimize=Debug -fsanitize=address`"),
     str ("- Consider fuzzing for user-facing input handling"),
     str ("- Add comprehensive test coverage for error conditions"),
     str ("- Document safety assumptions and invariants")]
    (str ("✅ Code appears to follow safe programming practices"))

end ZigStyleChecker

namespace ZigStyleChecker

-- /\b(?:for|while)\s*\(/ (per line in calculateNestedLoopDepth)
def loopLinePattern : RE :=
  cat [RE.wb, RE.alt (L ("for")) (L ("while")), RE.star jsWhitespace, L ("(")]

def calculateNestedLoopDepth (code : Str) : Nat :=
  let lines := splitLines code
  let final := lines.foldl (fun (acc : Nat × Nat × Bool) line =>
    let maxDepth := acc.1
    let currentDepth := acc.2.1
    let inLoop := acc.2.2
    let (maxDepth, currentDepth, inLoop) :=
      if reTest loopLinePattern line then
        (max maxDepth (currentDepth + 1), currentDepth + 1, true)
      else (maxDepth, currentDepth, inLoop)
    if includes line [rbrace] && inLoop then
      let cd := currentDepth - 1
      (maxDepth, cd, if cd == 0 then false else inLoop)
    else (maxDepth, currentDepth, inLoop)) (0, 0, false)
  final.1

-- /(?:for|while)\s*\(/g
def perfLoopsPattern : RE :=
  cat [RE.alt (L ("for")) (L ("while")), RE.star jsWhitespace, L ("(")]

-- /(?:for|while)[^{]*\{[^}]*(?:for|while)/g
def perfNestedLoopsPattern : RE :=
  cat [RE.alt (L ("for")) (L ("while")), RE.star (notChar lbrace), RE.lit [lbrace],
    RE.star (notChar rbrace), RE.alt (L ("for")) (L ("while"))]

-- /fn\s+\w+[^{]*\{[^}]*\w+\s*\([^)]*\)/g
def perfRecursionPattern : RE :=
  cat [L ("fn"), RE.plus jsWhitespace, RE.plus jsWordChar, RE.star (notChar lbrace),
    RE.lit [lbrace], RE.star (notChar rbrace), RE.plus jsWordChar, RE.star jsWhitespace,
    L ("("), RE.star (notChar ')'), L (")")]

def estimateComplexity (code : Str) : Str :=
  let loops := countMatches perfLoopsPattern code
  let nestedLoops := countMatches perfNestedLoopsPattern code
  let recursion := countMatches perfRecursionPattern code
  if nestedLoops > 1 then str ("O(n³) or higher")
  else if nestedLoops > 0 then str ("O(n²)")
  else if loops > 0 then str ("O(n)")
  else if recursion > 0 then str ("O(log n) to O(n) - depends on recursion")
  else str ("O(1)")

def getOptimizationPotential (hotspots optimizations : List Str) : Str :=
  if hotspots.length > 2 then str ("High - significant improvements possible")
  else if optimizations.length > 3 then str ("Medium - several improvements available")
  else if optimizations.length > 0 then str ("Low - minor improvements possible")
  else str ("Minimal - code is well-optimized")

-- Loop-body patterns of analyzePerformance (all with the /s flag):
-- /for\s*\([^)]*\)\s*\{[^}]*X[^}]*\}/s for the various bodies X.
def loopBodyPattern (body : RE) : RE :=
  cat [L ("for"), RE.star jsWhitespace, L ("("), RE.star (notChar ')'), L (")"),
    RE.star jsWhitespace, RE.lit [lbrace], RE.star (notChar rbrace), body,
    RE.star (notChar rbrace), RE.lit [rbrace]]

-- /for\s*\([^)]*\)\s*\{[^}]*HashMap[^}]*\}/s
def hashMapLoopPattern : RE := loopBodyPattern (L ("HashMap"))

-- /for\s*\([^)]*\)\s*\{[^}]*std\.fmt[^}]*\}/s
def fmtLoopPattern : RE := loopBodyPattern (L ("std.fmt"))

-- /initCapacity|ensureCapacity/
def capacityPattern : RE := RE.alt (L ("initCapacity")) (L ("ensureCapacity"))

-- /\d+\s*[+\-*]/g
def constantMathPattern : RE :=
  cat [RE.plus jsDigit, RE.star jsWhitespace,
    RE.cls (fun c => c == '+' || c == '-' || c == '*')]

-- /struct\s*\{/g
def structBracePattern : RE :=
  cat [L ("struct"), RE.star jsWhitespace, RE.lit [lbrace]]

-- /for\s*\([^)]*\)\s*\{[^}]*[+*/-][^}]*\}/s
def mathLoopPattern : RE :=
  loopBodyPattern (RE.cls (fun c => c == '+' || c == '*' || c == '/' || c == '-'))

-- /for\s*\([^)]*\)\s*\{[^}]*\w+\([^)]*\);[^}]*\}/s
def fnCallLoopPattern : RE :=
  loopBodyPattern (cat [RE.plus jsWordChar, L ("("), RE.star (notChar ')'), L (");")])

-- /for\s*\([^)]*\)\s*\{[^}]*std\.(?:io|fs)[^}]*\}/s
def ioLoopPattern : RE :=
  loopBodyPattern (RE.seq (L ("std.")) (RE.alt (L ("io")) (L ("fs"))))

-- /else\s+if/g
def elseIfPattern : RE := cat [L ("else"), RE.plus jsWhitespace, L ("if")]

-- /f\d+.*[+*/-].*f\d+/
def floatRoundPattern : RE :=
  cat [L ("f"), RE.plus jsDigit, RE.star jsDot,
    RE.cls (fun c => c == '+' || c == '*' || c == '/' || c == '-'), RE.star jsDot,
    L ("f"), RE.plus jsDigit]

-- /\w+\s*:\s*u8/
def smallFieldPattern : RE :=
  cat [RE.plus jsWordChar, RE.star jsWhitespace, L (":"), RE.star jsWhitespace, L ("u8")]

-- /\[\w+\]\[\w+\]/
def multiDimPattern : RE :=
  cat [L ("["), RE.plus jsWordChar, L ("]["), RE.plus jsWordChar, L ("]")]

def analyzePerformance (code : Str) : Str :=
  let nestedLoopDepth := calculateNestedLoopDepth code
  let allocCount := countMatches (L (".alloc(")) code
  let constantMath := countMatches constantMathPattern code
  let comptimeCount := countMatches (L ("comptime")) code
  let structCount := countMatches structBracePattern code
  let inlineCount := countMatches (L ("inline fn")) code
  let ifElseChains := countMatches elseIfPattern code
  let hotspots :=
    pushIf (nestedLoopDepth ≥ 3)
      (str ("- Deep nested loops detected (depth ") ++ natStr nestedLoopDepth ++
        str (") - O(n³) or worse complexity")) ++
    pushIf (reTest fmtLoopPattern code)
      (str ("- String formatting in loops - major performance bottleneck")) ++
    pushIf (includes code (str ("std.fmt.allocPrint")) && includes code (str ("++")))
      (str ("- String concatenation with allocPrint - use ArrayList(u8) or fixed buffer")) ++
    pushIf (reTest ioLoopPattern code)
      (str ("- I/O operations in loops - major performance bottleneck, batch operations"))
  let optimizations :=
    pushIf (nestedLoopDepth == 2)
      (str ("- Nested loops present - consider algorithm optimization for large datasets")) ++
    pushIf (reTest hashMapLoopPattern code)
      (str ("- HashMap operations in loops - consider batching or caching lookups")) ++
    pushIf (includes code (str ("std.ArrayList")) && !reTest capacityPattern code)
      (str ("- Pre-allocate ArrayList capacity when size is predictable")) ++
    pushIf (comptimeCount == 0 && includes code (str ("for")))
      (str ("- Consider comptime loops for compile-time known iterations")) ++
    pushIf (includes code (str ("[]struct")) || includes code (str ("ArrayList(struct")))
      (str ("- Array of Structs detected - consider Struct of Arrays for better cache locality")) ++
    pushIf (reTest mathLoopPattern code && !includes code (str ("@Vector")))
      (str ("- Math operations in loops - consider SIMD vectorization with @Vector")) ++
    pushIf (includes code (str ("inline fn")))
      (str ("- ") ++ natStr inlineCount ++
        str (" inline functions - verify performance benefit vs code size")) ++
    pushIf (reTest fnCallLoopPattern code)
      (str ("- Function calls in loops - consider inlining for hot paths")) ++
    pushIf (includes code (str ("std.io.getStdOut().print")) &&
        !includes code (str ("BufferedWriter")))
      (str ("- Unbuffered output - use std.io.BufferedWriter for better performance")) ++
    pushIf (ifElseChains > 3)
      (str ("- Long if-else chain (") ++ natStr ifElseChains ++
        str (") - switch statement may be faster")) ++
    pushIf (includes code (str ("f32")) || includes code (str ("f64")))
      (str ("- Floating point operations - consider @setFloatMode() for performance")) ++
    pushIf (reTest floatRoundPattern code && includes code (str ("round")))
      (str ("- Floating point with rounding - consider integer arithmetic where possible")) ++
    pushIf (reTest multiDimPattern code)
      (str ("- Multi-dimensional array access - consider access pattern optimization")) ++
    pushIf (includes code (str ("!")) && includes code (str ("catch")))
      (str ("- Error unions - use @errorReturnTrace(null) in release builds")) ++
    pushIf (includes code (str ("?")) && includes code (str ("orelse")))
      (str ("- Optional types - null checks have minimal overhead in Zig"))
  let benchmarkSuggestions :=
    pushIf (!includes code (str ("std.time")))
      (str ("- Add timing measurements with std.time.nanoTimestamp()")) ++
    [str ("- Use `zig build -Doptimize=ReleaseFast` for production benchmarks"),
     str ("- Consider `zig build -Dcpu=native` for target-specific optimization"),
     str ("- Profile with `perf record` on Linux for detailed analysis")]
  let memoryEfficiency :=
    pushIf (allocCount > 5)
      (str ("- Many allocations detected (") ++ natStr allocCount ++
        str (") - consider arena allocator")) ++
    pushIf (includes code (str ("struct \x7b")) && !includes code (str ("packed")))
      (str ("- ") ++ natStr structCount ++
        str (" unpacked structs - consider packed structs for memory efficiency")) ++
    pushIf (includes code (str ("struct \x7b")) && reTest smallFieldPattern code)
      (str ("- Small fields in structs - consider packing for cache efficiency"))
  let compiletimeOptimizations :=
    pushIf (constantMath > 2)
      (str ("- ") ++ natStr constantMath ++
        str (" constant expressions - use comptime evaluation")) ++
    pushIf (includes code (str ("@sizeOf")) || includes code (str ("@alignOf")))
      (str ("✓ Good: Using compile-time type introspection")) ++
    pushIf (!(comptimeCount == 0 && includes code (str ("for"))) && comptimeCount > 0)
      (str ("✓ Excellent: ") ++ natStr comptimeCount ++
        str (" comptime optimizations present")) ++
    pushIf (includes code (str ("@Vector")))
      (str ("✓ Advanced: Using SIMD vectorization for performance")) ++
    pushIf (includes code (str ("@branchHint")))
      (str ("✓ Advanced: Using branch hints for optimization")) ++
    [str ("- Use `--strip` flag for smaller binaries in production"),
     str ("- Consider `--release=safe` for optimized builds with safety checks")]
  finishWithFallback
    [(str ("🔥 **Performance Hotspots:**"), hotspots, true),
     (str ("⚡ **Optimization Opportunities:**"), optimizations, true),
     (str ("🧠 **Memory Efficiency:**"), memoryEfficiency, true),
     (str ("⏱️ **Compile-time Optimizations:**"), compiletimeOptimizations, true),
     (str ("📊 **Benchmarking & Profiling:**"), benchmarkSuggestions, false)]
    [([] : Str), str ("📈 **Performance Analysis Summary:**"),
     str ("- Code size: ") ++ natStr (splitLines code).length ++ str (" lines"),
     str ("- Estimated complexity: ") ++ estimateComplexity code,
     str ("- Optimization potential: ") ++ getOptimizationPotential hotspots optimizations]
    (str ("✅ No immediate performance concerns detected"))

end ZigStyleChecker

namespace ZigStyleChecker

def getSectionEmoji (sectionName : Str) : Str :=
  if sectionName == str ("issues") then str ("🚨")
  else if sectionName == str ("warnings") then str ("⚠️")
  else if sectionName == str ("concerns") then str ("⚠️")
  else if sectionName == str ("gaps") then str ("❌")
  else if sectionName == str ("deprecations") then str ("⚠️")
  else if sectionName == str ("recommendations") then str ("💡")
  else if sectionName == str ("suggestions") then str ("💡")
  else if sectionName == str ("upgrades") then str ("⬆️")
  else if sectionName == str ("opportunities") then str ("🎯")
  else if sectionName == str ("patterns") then str ("✅")
  else if sectionName == str ("strengths") then str ("✅")
  else if sectionName == str ("insights") then str ("📊")
  else if sectionName == str ("advanced") then str ("🚀")
  else if sectionName == str ("modern") then str ("✨")
  else if sectionName == str ("metrics") then str ("📈")
  else str ("📋")

def capitalizeFirst (s : Str) : Str :=
  match s with
  | [] => []
  | c :: t => Char.toUpper c :: t

-- `formatAnalysisResults(title, sections)`: the title parameter is
-- unused in the source as well; sections are iterated in insertion
-- order.
def formatAnalysisResults (_title : Str) (sections : List (Str × List Str)) : Str :=
  let results := (sections.map (fun sec =>
    if sec.2.isEmpty then []
    else (getSectionEmoji sec.1 ++ str (" **") ++ capitalizeFirst sec.1 ++ str (":**")) ::
      (sec.2 ++ [([] : Str)]))).flatten
  if results.isEmpty then ([] : Str) else trimStr (joinNL results)

-- /var\s+\w+\s*:/g
def globalVarsPattern : RE :=
  cat [L ("var"), RE.plus jsWhitespace, RE.plus jsWordChar, RE.star jsWhitespace, L (":")]

-- /var\s+\w+.*=.*\w+.*\+\+/
def dataRacePattern : RE :=
  cat [L ("var"), RE.plus jsWhitespace, RE.plus jsWordChar, RE.star jsDot, L ("="),
    RE.star jsDot, RE.plus jsWordChar, RE.star jsDot, L ("++")]

def analyzeConcurrency (code : Str) : Str :=
  let globalVars := countMatches globalVarsPattern code
  let issues :=
    pushIf (includes code (str ("std.Thread")) && !includes code (str ("Mutex")) &&
        !includes code (str ("Atomic")))
      (str ("- Multi-threading without synchronization primitives - race condition risk")) ++
    pushIf (globalVars > 0 && includes code (str ("std.Thread")))
      (str ("- ") ++ natStr globalVars ++
        str (" global variables in multi-threaded context - ensure thread safety")) ++
    pushIf (reTest dataRacePattern code && includes code (str ("std.Thread")))
      (str ("- Potential data race: non-atomic increment operations"))
  let recommendations :=
    pushIf ((includes code (str ("async")) || includes code (str ("await"))) &&
        !includes code (str ("suspend")) && !includes code (str ("resume")))
      (str ("- Consider explicit suspend/resume for fine-grained async control"))
  let patterns :=
    pushIf (includes code (str ("async")) || includes code (str ("await")))
      (str ("✓ Using async/await for concurrent programming")) ++
    pushIf (includes code (str ("std.Thread")))
      (str ("✓ Multi-threading implementation detected")) ++
    pushIf (includes code (str ("std.Thread.Mutex")))
      (str ("✓ Using mutexes for thread synchronization")) ++
    pushIf (includes code (str ("std.atomic")))
      (str ("✓ Using atomic operations for lock-free programming")) ++
    pushIf (includes code (str ("std.Thread.Condition")))
      (str ("✓ Advanced: Using condition variables for thread coordination"))
  let result := formatAnalysisResults (str ("Concurrency Analysis"))
    [(str ("issues"), issues), (str ("recommendations"), recommendations),
     (str ("patterns"), patterns)]
  orDefault result (str ("✅ No concurrency patterns detected"))

-- /comptime\s+\w+\s*:\s*type/
def comptimeTypePattern : RE :=
  cat [L ("comptime"), RE.plus jsWhitespace, RE.plus jsWordChar, RE.star jsWhitespace,
    L (":"), RE.star jsWhitespace, L ("type")]

def analyzeMetaprogramming (code : Str) : Str :=
  let comptimeCount := countMatches (L ("comptime")) code
  let constantExpressions := countMatches constantMathPattern code
  let advanced :=
    pushIf (comptimeCount > 0)
      (str ("✓ Excellent: ") ++ natStr comptimeCount ++
        str (" comptime evaluations for compile-time optimization")) ++
    pushIf (includes code (str ("@TypeOf")) || includes code (str ("@typeInfo")))
      (str ("✓ Advanced: Using type reflection for metaprogramming")) ++
    pushIf (includes code (str ("@fieldParentPtr")) || includes code (str ("@offsetOf")))
      (str ("✓ Expert: Low-level type introspection")) ++
    pushIf (includes code (str ("anytype")))
      (str ("✓ Using generic programming with anytype parameters")) ++
    pushIf (includes code (str ("@compileError")))
      (str ("✓ Using compile-time error generation")) ++
    pushIf (reTest comptimeTypePattern code)
      (str ("✓ Expert: Compile-time type generation"))
  let suggestions :=
    pushIf (includes code (str ("anytype")) && !includes code (str ("@TypeOf")))
      (str ("- Consider type constraints with @TypeOf for better error messages")) ++
    pushIf (includes code (str ("@compileLog")))
      (str ("- Remove @compileLog statements before production"))
  let opportunities :=
    pushIf (constantExpressions > 0 && !includes code (str ("comptime")))
      (str ("- ") ++ natStr constantExpressions ++
        str (" constant expressions could use comptime evaluation"))
  let result := formatAnalysisResults (str ("Metaprogramming Analysis"))
    [(str ("advanced"), advanced), (str ("suggestions"), suggestions),
     (str ("opportunities"), opportunities)]
  orDefault result (str ("✅ Basic metaprogramming - consider advanced patterns for optimization"))

-- /test\s+"[^"]*"/g
def testCountPattern : RE :=
  cat [L ("test"), RE.plus jsWhitespace, L ("\""), RE.star (notChar '"'), L ("\"")]

def analyzeTesting (code : Str) : Str :=
  let testCount := countMatches testCountPattern code
  let strengths :=
    pushIf (testCount > 0) (str ("✓ ") ++ natStr testCount ++ str (" tests present")) ++
    pushIf (includes code (str ("testing.expect")))
      (str ("✓ Using proper test assertions")) ++
    pushIf (includes code (str ("testing.expectError")))
      (str ("✓ Testing error conditions")) ++
    pushIf (includes code (str ("edge")) || includes code (str ("boundary")))
      (str ("✓ Edge case testing detected")) ++
    pushIf (includes code (str ("std.time")) && includes code (str ("test")))
      (str ("✓ Performance testing present"))
  let gaps :=
    pushIf (testCount == 0)
      (str ("- No tests detected - add comprehensive test coverage")) ++
    pushIf (!includes code (str ("testing.expect")) && testCount > 0)
      (str ("- Tests without assertions - add testing.expect* calls"))
  let suggestions :=
    pushIf (!includes code (str ("testing.expectError")) && includes code (str ("!")))
      (str ("- Add error condition testing with testing.expectError"))
  let result := formatAnalysisResults (str ("Testing Analysis"))
    [(str ("strengths"), strengths), (str ("gaps"), gaps), (str ("suggestions"), suggestions)]
  orDefault result (str ("✅ No testing patterns analyzed"))

def analyzeBuildSystem (code : Str) : Str :=
  let insights :=
    pushIf (includes code (str ("@import(\"build")))
      (str ("✓ Build system integration detected")) ++
    pushIf (includes code (str ("@import(\"builtin\")")))
      (str ("✓ Platform-aware compilation")) ++
    pushIf (includes code (str ("@import(\"config\")")) || includes code (str ("build_options")))
      (str ("✓ Using build-time configuration")) ++
    pushIf (includes code (str ("builtin.target")) || includes code (str ("builtin.os")))
      (str ("✓ Cross-compilation support"))
  let recommendations : List Str := []
  let result := formatAnalysisResults (str ("Build System Analysis"))
    [(str ("insights"), insights), (str ("recommendations"), recommendations)]
  orDefault result (str ("✅ No build system patterns detected"))

def analyzeInterop (code : Str) : Str :=
  let patterns :=
    pushIf (includes code (str ("@cImport")))
      (str ("✓ C library integration with @cImport")) ++
    pushIf (includes code (str ("extern")))
      (str ("✓ External function declarations")) ++
    pushIf (includes code (str ("export")))
      (str ("✓ Exporting functions for external use")) ++
    pushIf (includes code (str ("callconv(.C)")))
      (str ("✓ Explicit C calling convention")) ++
    pushIf (includes code (str ("extern struct")) || includes code (str ("packed struct")))
      (str ("✓ C-compatible struct layout"))
  let warnings :=
    pushIf (includes code (str ("@cImport")) && !includes code (str ("try")))
      (str ("- C functions may fail - consider error handling"))
  let suggestions :=
    pushIf (includes code (str ("@cImport")) && !includes code (str ("std.c.")))
      (str ("- Consider using std.c namespace for standard C functions"))
  let result := formatAnalysisResults (str ("Interoperability Analysis"))
    [(str ("patterns"), patterns), (str ("warnings"), warnings),
     (str ("suggestions"), suggestions)]
  orDefault result (str ("✅ No interoperability patterns detected"))

-- /\b(if|switch|while|for)\b/g
def conditionalsPattern : RE :=
  cat [RE.wb,
    RE.alt (RE.alt (L ("if")) (L ("switch"))) (RE.alt (L ("while")) (L ("for"))),
    RE.wb]

-- /pub\s+fn/g
def pubFnPattern : RE := cat [L ("pub"), RE.plus jsWhitespace, L ("fn")]

-- /pub\s+const\s+\w+\s*=\s*(?:struct|enum|union)/g
def pubTypesPattern : RE :=
  cat [L ("pub"), RE.plus jsWhitespace, L ("const"), RE.plus jsWhitespace,
    RE.plus jsWordChar, RE.star jsWhitespace, L ("="), RE.star jsWhitespace,
    alt3 (L ("struct")) (L ("enum")) (L ("union"))]

def analyzeCodeMetrics (code : Str) : Str :=
  let lines := splitLines code
  let totalLines := lines.length
  let codeLines := (lines.filter (fun line =>
    !(trimStr line).isEmpty && !(str ("//")).isPrefixOf (trimStr line))).length
  let commentLines := (lines.filter (fun line =>
    (str ("//")).isPrefixOf (trimStr line))).length
  let functions := countMatches functionCountPattern code
  let conditionals := countMatches conditionalsPattern code
  let complexity := conditionals / max functions 1
  let publicFns := countMatches pubFnPattern code
  let publicTypes := countMatches pubTypesPattern code
  let metrics :=
    [str ("- Total lines: ") ++ natStr totalLines,
     str ("- Code lines: ") ++ natStr codeLines,
     str ("- Comment lines: ") ++ natStr commentLines,
     str ("- Documentation ratio: ") ++ toFixed1 (commentLines * 100) totalLines ++ str ("%"),
     str ("- Function count: ") ++ natStr functions] ++
    (if functions > 0 then
       [str ("- Average lines per function: ") ++ natStr (jsRound codeLines functions)]
     else []) ++
    [str ("- Cyclomatic complexity: ~") ++ natStr complexity ++ str (" per function"),
     str ("- Public functions: ") ++ natStr publicFns,
     str ("- Public types: ") ++ natStr publicTypes]
  let concerns :=
    pushIf (functions > 0 && jsRound codeLines functions > 50)
      (str ("- Large functions detected - consider decomposition")) ++
    pushIf (complexity > 10)
      (str ("- High complexity - consider simplifying control flow"))
  let result := formatAnalysisResults (str ("Code Metrics"))
    [(str ("metrics"), metrics), (str ("concerns"), concerns)]
  orDefault result (str ("✅ Code metrics within reasonable bounds"))

def analyzeModernZigPatterns (code : Str) : Str :=
  let modern :=
    pushIf (includes code (str ("b.path(")))
      (str ("✓ Using modern Zig 0.15.2+ b.path() for file references")) ++
    pushIf (includes code (str ("root_module.addImport(")))
      (str ("✓ Using modern Zig 0.15.2+ module system with root_module.addImport()")) ++
    pushIf ((includes code (str (".\x7b .path = ")) || includes code (str (".\x7b .name = "))) &&
        includes code (str ("b.path(")))
      (str ("✓ Using modern struct initialization syntax")) ++
    pushIf (includes code (str ("b.addExecutable(.\x7b")))
      (str ("✓ Modern build.zig API"))
  let upgrades :=
    pushIf ((includes code (str (".\x7b .path = ")) || includes code (str (".\x7b .name = "))) &&
        !includes code (str ("b.path(")))
      (str ("- Upgrade to Zig 0.15.2+: use b.path() instead of .\x7b .path = \x7d")) ++
    pushIf (includes code (str ("std.fmt.allocPrintZ")))
      (str ("- Consider std.fmt.allocPrint with explicit null termination"))
  let deprecations :=
    pushIf (includes code (str ("setTarget(")) || includes code (str ("setBuildMode(")))
      (str ("- Update to Zig 0.12+ build API: use .target and .optimize parameters")) ++
    pushIf (includes code (str ("std.build.Builder")))
      (str ("- Replace std.build.Builder with *std.Build")) ++
    pushIf (includes code (str (".addModule(")) && !includes code (str ("root_module")))
      (str ("- Upgrade to Zig 0.15.2+: use .root_module.addImport() instead of .addModule()"))
  let result := formatAnalysisResults (str ("Modern Zig Analysis"))
    [(str ("modern"), modern), (str ("upgrades"), upgrades),
     (str ("deprecations"), deprecations)]
  orDefault result (str ("✅ Code uses modern Zig patterns"))

end ZigStyleChecker

-- ===== Concrete inputs used by counterexamples and witnesses =====

-- Two syntactically nested while loops where an `if` block closes
-- before the inner loop, so the nested-loop regex finds no match.
def nestedLoopsMissedInput : Str :=
  str ("while (a) \x7b\n    if (b) \x7b c(); \x7d\n    while (d) \x7b e(); \x7d\n\x7d\n")

-- Two directly nested while loops that the nested-loop regex does match.
def nestedLoopsHitInput : Str :=
  str ("while (i < n) \x7b while (j < n) \x7b j += 1; \x7d \x7d")

-- One general-purpose and one page allocator, no arena or fixed buffer.
def gpaPageInput : Str :=
  str ("std.heap.GeneralPurposeAllocator\nstd.heap.page_allocator\n")

-- One arena and one fixed-buffer allocator.
def arenaFixedBufInput : Str :=
  str ("std.heap.ArenaAllocator std.heap.FixedBufferAllocator")

-- The "should approve modern build files" sample of
-- tests/zig-build.test.ts, verbatim.
def modernBuildZigInput : Str :=
  str ("\n        const std = @import(\"std\");\n        pub fn build(b: *std.Build) void \x7b\n          const target = b.standardTargetOptions(.\x7b\x7d);\n          const optimize = b.standardOptimizeOption(.\x7b\x7d);\n          const exe = b.addExecutable(.\x7b\x7d);\n          const test_step = b.addTest(.\x7b\x7d);\n          b.installArtifact(exe);\n        \x7d\n      ")

-- The "should detect deprecated Builder usage" sample of
-- tests/zig-build.test.ts, verbatim.
def oldBuilderBuildZigInput : Str :=
  str ("\n        const Builder = @import(\"std\").build.Builder;\n        pub fn build(b: *Builder) void \x7b\x7d\n      ")

-- The spec's template-selection order (struct, then enum, then union,
-- then function-or-implement, defaulting to the function template; the
-- last two cases emit the same template).
inductive TemplateKind : Type where
  | structT | enumT | unionT | functionT
deriving DecidableEq, Repr

-- Modelled from the spec: "Selects exactly one of \x7bstruct, enum, union,
-- function\x7d templates by checking feature-set membership in a fixed
-- priority order (struct > enum > union > function-or-implement,
-- defaulting to function)."
def specTemplateChoice (features : List Str) : TemplateKind :=
  if features.contains (str ("struct")) then TemplateKind.structT
  else if features.contains (str ("enum")) then TemplateKind.enumT
  else if features.contains (str ("union")) then TemplateKind.unionT
  else TemplateKind.functionT

-- The opening text unique to each template body.
def templateMarker : TemplateKind → Str
  | TemplateKind.structT => str ("pub const MyStruct = struct")
  | TemplateKind.enumT => str ("pub const MyEnum = enum")
  | TemplateKind.unionT => str ("pub const MyUnion = union(enum)")
  | TemplateKind.functionT => str ("pub fn process(input: []const u8)")

-- ===== General lemmas =====

theorem isSub_iff (pat s : Str) : isSub pat s = true ↔ pat <:+: s := by
  induction s with
  | nil => simp [isSub, List.isEmpty_iff, List.infix_nil]
  | cons c t ih => simp [isSub, List.isPrefixOf_iff_prefix, ih, List.infix_cons_iff]

theorem joinSep_cons_ne_nil (sep : Char) (x : Str) (l : List Str) (hx : x ≠ []) :
    joinSep sep (x :: l) ≠ [] := by
  cases l with
  | nil => simpa [joinSep] using hx
  | cons y t =>
    simp only [joinSep]
    exact List.append_ne_nil_of_right_ne_nil _ (List.cons_ne_nil _ _)

theorem combineSections_shape (blocks : List (Str × List Str × Bool))
    (hh : ∀ b ∈ blocks, b.1 ≠ []) :
    combineSections blocks = [] ∨
    ∃ h t, combineSections blocks = h :: t ∧ h ≠ [] := by
  induction blocks with
  | nil => exact Or.inl rfl
  | cons b bs ih =>
    have hb : b.1 ≠ [] := hh b (List.mem_cons_self _ _)
    have hbs : ∀ q ∈ bs, q.1 ≠ [] := fun q hq => hh q (List.mem_cons_of_mem _ hq)
    by_cases he : b.2.1.isEmpty
    · have h0 : combineSections (b :: bs) = combineSections bs := by
        simp [combineSections, sectionBlock, List.isEmpty_iff.mp he]
      rw [h0]; exact ih hbs
    · have hne2 : b.2.1 ≠ [] := fun hc => he (by simp [hc])
      refine Or.inr ⟨b.1,
        b.2.1 ++ ((if b.2.2 then [([] : Str)] else []) ++ combineSections bs), ?_, hb⟩
      simp [combineSections, sectionBlock, hne2, List.append_assoc]

theorem finishWithFallback_ne_nil (blocks : List (Str × List Str × Bool))
    (extras : List Str) (fallback : Str)
    (hh : ∀ h ∈ blocks.map Prod.fst, h ≠ []) (hf : fallback ≠ []) :
    finishWithFallback blocks extras fallback ≠ [] := by
  have hh2 : ∀ b ∈ blocks, b.1 ≠ [] := fun b hb => hh b.1 (List.mem_map_of_mem _ hb)
  simp only [finishWithFallback]
  rcases combineSections_shape blocks hh2 with h0 | ⟨h, t, heq, hne⟩
  · simp [h0, hf]
  · rw [heq]
    simpa using joinSep_cons_ne_nil '\n' h (t ++ extras) hne

theorem orDefault_ne_nil (result fallback : Str) (hf : fallback ≠ []) :
    orDefault result fallback ≠ [] := by
  unfold orDefault
  by_cases h : result.isEmpty
  · simp [h, hf]
  · simpa [h] using fun hc => h (by simp [hc])

theorem prefix_split_of_no_sep {w x y : Str} (hw : ' ' ∉ w) (h : w <+: x ++ ' ' :: y) :
    w <+: x := by
  induction x generalizing w with
  | nil =>
    cases w with
    | nil => exact List.nil_prefix
    | cons a w2 =>
      rw [List.nil_append] at h
      rcases List.cons_prefix_cons.mp h with ⟨rfl, -⟩
      exact absurd (List.mem_cons_self _ _) hw
  | cons b x2 ih =>
    cases w with
    | nil => exact List.nil_prefix
    | cons a w2 =>
      rw [List.cons_append] at h
      rcases List.cons_prefix_cons.mp h with ⟨rfl, h2⟩
      have hw2 : ' ' ∉ w2 := fun hc => hw (List.mem_cons_of_mem _ hc)
      exact List.cons_prefix_cons.mpr ⟨rfl, ih hw2 h2⟩

theorem infix_split_of_no_sep {w x y : Str} (hw : ' ' ∉ w) (h : w <:+: x ++ ' ' :: y) :
    w <:+: x ∨ w <:+: y := by
  induction x generalizing w with
  | nil =>
    rw [List.nil_append] at h
    rcases List.infix_cons_iff.mp h with hp | hi
    · cases w with
      | nil => exact Or.inl List.nil_infix
      | cons a w2 =>
        rcases List.cons_prefix_cons.mp hp with ⟨rfl, -⟩
        exact absurd (List.mem_cons_self _ _) hw
    · exact Or.inr hi
  | cons b x2 ih =>
    rw [List.cons_append] at h
    rcases List.infix_cons_iff.mp h with hp | hi
    · exact Or.inl (prefix_split_of_no_sep hw (by rwa [← List.cons_append] at hp)).isInfix
    · rcases ih hw hi with h1 | h2
      · exact Or.inl (h1.trans (List.suffix_cons b x2).isInfix)
      · exact Or.inr h2

theorem ne_nil_of_infix {pat s : Str} (hp : pat ≠ []) (h : pat <:+: s) : s ≠ [] := by
  intro hs; subst hs; exact hp (List.infix_nil.mp h)

-- An occurrence in the space-joined search text of `parseRequirements`
-- is an occurrence in the plain lowercased concatenation of prompt and
-- context, for space-free keywords.
theorem infix_concat_of_infix_fullText {w : Str} {p : Str} {c : Option Str}
    (hw : ' ' ∉ w) (h : w <:+: ZigCodeGenerator.fullTextOf p c) :
    w <:+: toLowerCase (p ++ c.getD []) := by
  cases c with
  | none =>
    by_cases hp : p = []
    · subst hp
      simp [ZigCodeGenerator.fullTextOf, joinSep, toLowerCase] at h ⊢
      simpa using h
    · have hfull : ZigCodeGenerator.fullTextOf p none = toLowerCase p := by
        simp [ZigCodeGenerator.fullTextOf, hp, joinSep]
      rw [hfull] at h
      simpa using h
  | some cc =>
    by_cases hp : p = [] <;> by_cases hc : cc = []
    · subst hp; subst hc
      simp [ZigCodeGenerator.fullTextOf, joinSep, toLowerCase] at h ⊢
      simpa using h
    · subst hp
      have hfull : ZigCodeGenerator.fullTextOf [] (some cc) = toLowerCase cc := by
        simp [ZigCodeGenerator.fullTextOf, hc, joinSep]
      rw [hfull] at h
      simpa using h
    · subst hc
      have hfull : ZigCodeGenerator.fullTextOf p (some []) = toLowerCase p := by
        simp [ZigCodeGenerator.fullTextOf, hp, joinSep]
      rw [hfull] at h
      simpa using h
    · have hfull : ZigCodeGenerator.fullTextOf p (some cc) =
          toLowerCase p ++ ' ' :: toLowerCase cc := by
        simp [ZigCodeGenerator.fullTextOf, hp, hc, joinSep, toLowerCase]
      rw [hfull] at h
      have hgoal : toLowerCase (p ++ (some cc).getD []) =
          toLowerCase p ++ toLowerCase cc := by
        simp [toLowerCase]
      rw [hgoal]
      rcases infix_split_of_no_sep hw h with h1 | h2
      · exact h1.trans (List.prefix_append _ _).isInfix
      · exact h2.trans (List.suffix_append _ _).isInfix

-- ===== Per-classifier non-emptiness (C5 helpers) =====

theorem analyzeCodeStyle_ne_nil (code : Str) : ZigStyleChecker.analyzeCodeStyle code ≠ [] := by
  simp only [ZigStyleChecker.analyzeCodeStyle]
  refine finishWithFallback_ne_nil _ _ _ ?_ (by decide)
  simp only [List.map_cons, List.map_nil]
  decide

theorem analyzePatterns_ne_nil (code : Str) : ZigStyleChecker.analyzePatterns code ≠ [] := by
  simp only [ZigStyleChecker.analyzePatterns]
  refine finishWithFallback_ne_nil _ _ _ ?_ (by decide)
  simp only [List.map_cons, List.map_nil]
  decide

theorem analyzeSafety_ne_nil (code : Str) : ZigStyleChecker.analyzeSafety code ≠ [] := by
  simp only [ZigStyleChecker.analyzeSafety]
  refine finishWithFallback_ne_nil _ _ _ ?_ (by decide)
  simp only [List.map_cons, List.map_nil]
  decide

theorem analyzePerformance_ne_nil (code : Str) :
    ZigStyleChecker.analyzePerformance code ≠ [] := by
  simp only [ZigStyleChecker.analyzePerformance]
  refine finishWithFallback_ne_nil _ _ _ ?_ (by decide)
  simp only [List.map_cons, List.map_nil]
  decide

theorem analyzeConcurrency_ne_nil (code : Str) :
    ZigStyleChecker.analyzeConcurrency code ≠ [] := by
  simp only [ZigStyleChecker.analyzeConcurrency]
  exact orDefault_ne_nil _ _ (by decide)

theorem analyzeMetaprogramming_ne_nil (code : Str) :
    ZigStyleChecker.analyzeMetaprogramming code ≠ [] := by
  simp only [ZigStyleChecker.analyzeMetaprogramming]
  exact orDefault_ne_nil _ _ (by decide)

theorem analyzeTesting_ne_nil (code : Str) : ZigStyleChecker.analyzeTesting code ≠ [] := by
  simp only [ZigStyleChecker.analyzeTesting]
  exact orDefault_ne_nil _ _ (by decide)

theorem analyzeBuildSystem_ne_nil (code : Str) :
    ZigStyleChecker.analyzeBuildSystem code ≠ [] := by
  simp only [ZigStyleChecker.analyzeBuildSystem]
  exact orDefault_ne_nil _ _ (by decide)

theorem analyzeInterop_ne_nil (code : Str) : ZigStyleChecker.analyzeInterop code ≠ [] := by
  simp only [ZigStyleChecker.analyzeInterop]
  exact orDefault_ne_nil _ _ (by decide)

theorem analyzeCodeMetrics_ne_nil (code : Str) :
    ZigStyleChecker.analyzeCodeMetrics code ≠ [] := by
  simp only [ZigStyleChecker.analyzeCodeMetrics]
  exact orDefault_ne_nil _ _ (by decide)

theorem analyzeModernZigPatterns_ne_nil (code : Str) :
    ZigStyleChecker.analyzeModernZigPatterns code ≠ [] := by
  simp only [ZigStyleChecker.analyzeModernZigPatterns]
  exact orDefault_ne_nil _ _ (by decide)

/-- C5: for every input text, each of the eleven classifiers (style,
patterns, safety, performance, concurrency, metaprogramming, testing,
build-system, interop, metrics, modernity) produces a non-empty report
string: when no rule fires, the classifier returns its fixed default
positive message instead of an empty string.  The classifiers are total
functions of the input text (the embedding is executable and defined on
every string), which models that they never throw. -/
theorem classifiers_always_nonempty (code : Str) :
    ZigStyleChecker.analyzeCodeStyle code ≠ [] ∧
    ZigStyleChecker.analyzePatterns code ≠ [] ∧
    ZigStyleChecker.analyzeSafety code ≠ [] ∧
    ZigStyleChecker.analyzePerformance code ≠ [] ∧
    ZigStyleChecker.analyzeConcurrency code ≠ [] ∧
    ZigStyleChecker.analyzeMetaprogramming code ≠ [] ∧
    ZigStyleChecker.analyzeTesting code ≠ [] ∧
    ZigStyleChecker.analyzeBuildSystem code ≠ [] ∧
    ZigStyleChecker.analyzeInterop code ≠ [] ∧
    ZigStyleChecker.analyzeCodeMetrics code ≠ [] ∧
    ZigStyleChecker.analyzeModernZigPatterns code ≠ [] :=
  ⟨analyzeCodeStyle_ne_nil code, analyzePatterns_ne_nil code, analyzeSafety_ne_nil code,
   analyzePerformance_ne_nil code, analyzeConcurrency_ne_nil code,
   analyzeMetaprogramming_ne_nil code, analyzeTesting_ne_nil code,
   analyzeBuildSystem_ne_nil code, analyzeInterop_ne_nil code,
   analyzeCodeMetrics_ne_nil code, analyzeModernZigPatterns_ne_nil code⟩

/-- C10: for every prompt and optional context, the features set of
`parseRequirements` is duplicate-free, a subset of the fixed
eight-keyword list, and each member occurs as a substring of the
lowercased concatenation of prompt and context; each of the three
boolean flags is true only if some keyword of its category occurs as
such a substring. -/
theorem parseRequirements_invariants (prompt : Str) (context : Option Str) :
    (ZigCodeGenerator.parseRequirements prompt context).features.Nodup ∧
    (∀ w ∈ (ZigCodeGenerator.parseRequirements prompt context).features,
      w ∈ ZigCodeGenerator.featureKeywords) ∧
    (∀ w ∈ (ZigCodeGenerator.parseRequirements prompt context).features,
      w <:+: toLowerCase (prompt ++ context.getD [])) ∧
    ((ZigCodeGenerator.parseRequirements prompt context).errorHandling = true →
      ∃ w ∈ ZigCodeGenerator.errorHandlingKeywords,
        w <:+: toLowerCase (prompt ++ context.getD [])) ∧
    ((ZigCodeGenerator.parseRequirements prompt context).testing = true →
      ∃ w ∈ ZigCodeGenerator.testingKeywords,
        w <:+: toLowerCase (prompt ++ context.getD [])) ∧
    ((ZigCodeGenerator.parseRequirements prompt context).performance = true →
      ∃ w ∈ ZigCodeGenerator.performanceKeywords,
        w <:+: toLowerCase (prompt ++ context.getD [])) := by
  have hfeatNoSp : ∀ w ∈ ZigCodeGenerator.featureKeywords, ' ' ∉ w := by decide
  have hehNoSp : ∀ w ∈ ZigCodeGenerator.errorHandlingKeywords, ' ' ∉ w := by decide
  have htNoSp : ∀ w ∈ ZigCodeGenerator.testingKeywords, ' ' ∉ w := by decide
  have hpNoSp : ∀ w ∈ ZigCodeGenerator.performanceKeywords, ' ' ∉ w := by decide
  have hnodup : ZigCodeGenerator.featureKeywords.Nodup := by decide
  refine ⟨?_, ?_, ?_, ?_, ?_, ?_⟩
  · simp only [ZigCodeGenerator.parseRequirements]
    by_cases hg : ZigCodeGenerator.featureKeywords.any
        (fun w => includes (ZigCodeGenerator.fullTextOf prompt context) w)
    · simpa [hg] using hnodup.filter _
    · simp [hg]
  · intro w hw
    simp only [ZigCodeGenerator.parseRequirements] at hw
    by_cases hg : ZigCodeGenerator.featureKeywords.any
        (fun w => includes (ZigCodeGenerator.fullTextOf prompt context) w)
    · simp only [hg, if_true] at hw
      exact (List.mem_filter.mp hw).1
    · simp [hg] at hw
  · intro w hw
    simp only [ZigCodeGenerator.parseRequirements] at hw
    by_cases hg : ZigCodeGenerator.featureKeywords.any
        (fun w => includes (ZigCodeGenerator.fullTextOf prompt context) w)
    · simp only [hg, if_true] at hw
      rcases List.mem_filter.mp hw with ⟨hmem, hinc⟩
      exact infix_concat_of_infix_fullText (hfeatNoSp w hmem)
        ((isSub_iff _ _).mp hinc)
    · simp [hg] at hw
  · intro hflag
    simp only [ZigCodeGenerator.parseRequirements] at hflag
    rcases List.any_eq_true.mp hflag with ⟨w, hmem, hinc⟩
    exact ⟨w, hmem, infix_concat_of_infix_fullText (hehNoSp w hmem)
      ((isSub_iff _ _).mp hinc)⟩
  · intro hflag
    simp only [ZigCodeGenerator.parseRequirements] at hflag
    rcases List.any_eq_true.mp hflag with ⟨w, hmem, hinc⟩
    exact ⟨w, hmem, infix_concat_of_infix_fullText (htNoSp w hmem)
      ((isSub_iff _ _).mp hinc)⟩
  · intro hflag
    simp only [ZigCodeGenerator.parseRequirements] at hflag
    rcases List.any_eq_true.mp hflag with ⟨w, hmem, hinc⟩
    exact ⟨w, hmem, infix_concat_of_infix_fullText (hpNoSp w hmem)
      ((isSub_iff _ _).mp hinc)⟩

-- C10 witness: the invariants instantiated at a concrete call.
theorem parseRequirements_invariants_witness :
    (ZigCodeGenerator.parseRequirements (str ("create a test struct"))
      (some (str ("handle errors")))).features.Nodup ∧
    (∀ w ∈ (ZigCodeGenerator.parseRequirements (str ("create a test struct"))
      (some (str ("handle errors")))).features, w ∈ ZigCodeGenerator.featureKeywords) ∧
    (∀ w ∈ (ZigCodeGenerator.parseRequirements (str ("create a test struct"))
      (some (str ("handle errors")))).features,
      w <:+: toLowerCase (str ("create a test struct") ++ (some (str ("handle errors"))).getD [])) ∧
    ((ZigCodeGenerator.parseRequirements (str ("create a test struct"))
      (some (str ("handle errors")))).errorHandling = true →
      ∃ w ∈ ZigCodeGenerator.errorHandlingKeywords,
        w <:+: toLowerCase (str ("create a test struct") ++ (some (str ("handle errors"))).getD [])) ∧
    ((ZigCodeGenerator.parseRequirements (str ("create a test struct"))
      (some (str ("handle errors")))).testing = true →
      ∃ w ∈ ZigCodeGenerator.testingKeywords,
        w <:+: toLowerCase (str ("create a test struct") ++ (some (str ("handle errors"))).getD [])) ∧
    ((ZigCodeGenerator.parseRequirements (str ("create a test struct"))
      (some (str ("handle errors")))).performance = true →
      ∃ w ∈ ZigCodeGenerator.performanceKeywords,
        w <:+: toLowerCase (str ("create a test struct") ++ (some (str ("handle errors"))).getD [])) :=
  parseRequirements_invariants (str ("create a test struct")) (some (str ("handle errors")))

/-- C7: `generate_code` is deterministic.  The only per-invocation
inputs besides the arguments are the logging environment (timestamp and
DEBUG flag consumed by `Logger.debug`); the returned text payload is
independent of them, so two invocations with identical prompt and
identical (possibly absent) context return byte-identical payloads. -/
theorem generateCode_deterministic (env1 env2 : LogEnv) (prompt : Str)
    (context : Option Str) :
    (ZigMcpServer.generateCode env1 prompt context).2 =
    (ZigMcpServer.generateCode env2 prompt context).2 := rfl

-- ===== C3 =====

-- C3 counterexample: two syntactically nested while loops (the inner
-- loop sits in the body of the outer one, after an `if` block whose
-- closing brace precedes it) with no recursion-pattern match, yet the
-- reported label is "O(n)" because the nested-loop regex
-- /(?:while|for)[^{]*\{[^}]*(?:while|for)/ cannot cross the `}` of the
-- intervening block.
theorem timeComplexityLabel_nested_miss_counterexample :
    ZigCodeAnalyzer.timeComplexityLabel nestedLoopsMissedInput = str ("O(n)") ∧
    countMatches ZigCodeAnalyzer.recursionPattern nestedLoopsMissedInput = 0 ∧
    0 < countMatches ZigCodeAnalyzer.loopsPattern nestedLoopsMissedInput :=
  ⟨by decide, by decide, by decide⟩

/-- C3 (amended): for every input text on which the nested-loop pattern
of `TIME_COMPLEXITY_PATTERNS` finds at least one match and the recursion
pattern finds none, the complexity label computed by
`analyzeTimeComplexity` (and reported by `estimate_compute_units`) is
exactly "O(n²)" — never "O(n)" and never "O(1)". -/
theorem timeComplexityLabel_nested_pattern (code : Str)
    (h1 : 0 < countMatches ZigCodeAnalyzer.nestedLoopsPattern code)
    (h2 : countMatches ZigCodeAnalyzer.recursionPattern code = 0) :
    ZigCodeAnalyzer.timeComplexityLabel code = str ("O(n²)") := by
  simp [ZigCodeAnalyzer.timeComplexityLabel, h1, h2]

-- C3 witness: the amended theorem applied to a concrete nested loop.
theorem timeComplexityLabel_nested_pattern_witness :
    ZigCodeAnalyzer.timeComplexityLabel nestedLoopsHitInput = str ("O(n²)") :=
  timeComplexityLabel_nested_pattern nestedLoopsHitInput (by decide) (by decide)

-- ===== C4 =====

-- C4 counterexample: a text whose only allocator references are one
-- general-purpose and one page allocator.  Per the claim the label
-- should indicate a mixed strategy; `estimate_compute_units` labels it
-- "Default allocator usage" because `ZigCodeAnalyzer.analyzeAllocations`
-- counts only the arena and fixed-buffer patterns.
theorem allocationStrategy_gpa_page_counterexample :
    ZigCodeAnalyzer.allocationStrategyOf gpaPageInput = str ("Default allocator usage") ∧
    0 < countMatches ZigMcpServer.gpaPattern gpaPageInput ∧
    0 < countMatches ZigMcpServer.pageAllocPattern gpaPageInput ∧
    ZigCodeAnalyzer.allocationStrategyOf gpaPageInput ≠ str ("Mixed allocation strategy") :=
  ⟨by decide, by decide, by decide, by decide⟩

/-- C4 (amended): the allocation-strategy label of
`estimate_compute_units` is determined by the arena and fixed-buffer
counts alone: zero matches of both patterns give exactly "Default
allocator usage"; a nonzero count in exactly one of the two kinds names
that kind; nonzero counts in both give the mixed-strategy label.  The
general-purpose and page allocator patterns never influence it. -/
theorem allocationStrategy_two_kinds (code : Str) :
    ((countMatches ZigCodeAnalyzer.arenaPattern code = 0 ∧
      countMatches ZigCodeAnalyzer.fixedBufPattern code = 0) →
      ZigCodeAnalyzer.allocationStrategyOf code = str ("Default allocator usage")) ∧
    ((0 < countMatches ZigCodeAnalyzer.arenaPattern code ∧
      0 < countMatches ZigCodeAnalyzer.fixedBufPattern code) →
      ZigCodeAnalyzer.allocationStrategyOf code = str ("Mixed allocation strategy")) ∧
    ((0 < countMatches ZigCodeAnalyzer.arenaPattern code ∧
      countMatches ZigCodeAnalyzer.fixedBufPattern code = 0) →
      ZigCodeAnalyzer.allocationStrategyOf code = str ("Arena-based allocation")) ∧
    ((countMatches ZigCodeAnalyzer.arenaPattern code = 0 ∧
      0 < countMatches ZigCodeAnalyzer.fixedBufPattern code) →
      ZigCodeAnalyzer.allocationStrategyOf code = str ("Fixed buffer allocation")) := by
  refine ⟨?_, ?_, ?_, ?_⟩ <;> rintro ⟨ha, hf⟩ <;>
    simp [ZigCodeAnalyzer.allocationStrategyOf, ZigCodeAnalyzer.determineAllocStrategy,
      ha, hf]

-- C4 witness: the mixed-strategy case at a concrete input.
theorem allocationStrategy_two_kinds_witness :
    ZigCodeAnalyzer.allocationStrategyOf arenaFixedBufInput =
      str ("Mixed allocation strategy") :=
  (allocationStrategy_two_kinds arenaFixedBufInput).2.1 ⟨by decide, by decide⟩

-- ===== C1 =====

-- C1 counterexample: a present but unrecognized optimization level does
-- not fall back to ReleaseSafe; `buildModeOpts[level]` is undefined and
-- the `.map` call throws (modelled by `none`), so no report is returned.
theorem optimizeCode_unknown_level_counterexample :
    ZigMcpServer.optimizeCodeTool (str ("")) (some (str ("Turbo"))) = none := by decide

/-- C1 (amended): for every code string and every present
optimizationLevel string that is not one of Debug, ReleaseSafe,
ReleaseFast, ReleaseSmall, `optimize_code` throws (the undefined mode
lookup makes `.map` fail, modelled by `none`) instead of returning a
report; the ReleaseSafe default applies only when the level argument is
absent, in which case a report is produced. -/
theorem optimizeCode_unknown_level_throws (code lvl : Str)
    (h : lvl ∉ [str ("Debug"), str ("ReleaseSafe"), str ("ReleaseFast"),
      str ("ReleaseSmall")]) :
    ZigMcpServer.optimizeCodeTool code (some lvl) = none ∧
    (ZigMcpServer.optimizeCodeTool code none).isSome = true := by
  have h1 : (lvl == str ("Debug")) = false := by
    simp only [beq_eq_false_iff_ne]; intro e; exact h (by simp [e])
  have h2 : (lvl == str ("ReleaseSafe")) = false := by
    simp only [beq_eq_false_iff_ne]; intro e; exact h (by simp [e])
  have h3 : (lvl == str ("ReleaseFast")) = false := by
    simp only [beq_eq_false_iff_ne]; intro e; exact h (by simp [e])
  have h4 : (lvl == str ("ReleaseSmall")) = false := by
    simp only [beq_eq_false_iff_ne]; intro e; exact h (by simp [e])
  constructor
  · simp [ZigMcpServer.optimizeCodeTool, ZigMcpServer.optimizeCode,
      ZigMcpServer.buildModeOpts, h1, h2, h3, h4]
  · have hb : ZigMcpServer.buildModeOpts (str ("ReleaseSafe")) =
        some [str ("Runtime safety checks enabled"), str ("Optimizations enabled"),
          str ("Good balance of safety and performance")] := by decide
    simp [ZigMcpServer.optimizeCodeTool, ZigMcpServer.optimizeCode, hb]

-- C1 witness: the amended theorem at a concrete unknown level.
theorem optimizeCode_unknown_level_throws_witness :
    ZigMcpServer.optimizeCodeTool (str ("x")) (some (str ("Custom"))) = none ∧
    (ZigMcpServer.optimizeCodeTool (str ("x")) none).isSome = true :=
  optimizeCode_unknown_level_throws (str ("x")) (str ("Custom")) (by decide)

-- ===== C2 =====

/-- C2: evaluation of `analyzeBuildZig` at the repository's own test
inputs.  On the "should approve modern build files" sample (which
contains all four modern markers) the result is the single
`getEmittedDocs` recommendation — not the "Build file follows modern
Zig patterns" message the test asserts — so the code contradicts
tests/zig-build.test.ts.  On the deprecated-Builder sample the
recommendation naming the modern replacement std.Build is present, as
the claim states. -/
theorem analyzeBuildZig_modern_sample_evaluation :
    ZigBuildSystemHelper.analyzeBuildZig modernBuildZigInput =
      [str ("Add documentation generation with getEmittedDocs() and addInstallDirectory()")] ∧
    str ("Build file follows modern Zig patterns") ∉
      ZigBuildSystemHelper.analyzeBuildZig modernBuildZigInput ∧
    str ("Update to new Build API: replace Builder with std.Build") ∈
      ZigBuildSystemHelper.analyzeBuildZig oldBuilderBuildZigInput :=
  ⟨by decide, by decide, by decide⟩

-- ===== C6 =====

-- C6 counterexample: the prompt "test handle" contains no occurrence of
-- "error" in its lowercased text, yet the generated output contains the
-- testing.expectError assertion, because the keyword "handle" also sets
-- the error-handling flag.
theorem generateCode_expectError_counterexample :
    includes (toLowerCase (str ("test handle"))) (str ("error")) = false ∧
    includes (toLowerCase (str ("test handle"))) (str ("test")) = true ∧
    isSub (str ("testing.expectError"))
      (ZigMcpServer.generateCodeText (str ("test handle")) none) = true :=
  ⟨by decide, by decide, by decide⟩

/-- C6 (amended): for every (prompt, context) pair whose search text
(the lowercased space-joined prompt and context used by
`parseRequirements`; with an absent context this is exactly the
lowercased prompt) contains "error" and "test", the
`generate_code` output contains the testing.expectError assertion; and
for every such pair whose search text contains none of the five
error-handling keywords (error, handle, catch, try, fail) but does
contain "test", that assertion is absent from the output. -/
theorem generateCode_expectError_keywords (prompt : Str) (context : Option Str) :
    ((str ("error") <:+: ZigCodeGenerator.fullTextOf prompt context) →
     (str ("test") <:+: ZigCodeGenerator.fullTextOf prompt context) →
     isSub (str ("testing.expectError"))
       (ZigMcpServer.generateCodeText prompt context) = true) ∧
    ((∀ w ∈ ZigCodeGenerator.errorHandlingKeywords,
        ¬ (w <:+: ZigCodeGenerator.fullTextOf prompt context)) →
     (str ("test") <:+: ZigCodeGenerator.fullTextOf prompt context) →
     isSub (str ("testing.expectError"))
       (ZigMcpServer.generateCodeText prompt context) = false) := by
  constructor
  · intro he ht
    have hEH : (ZigCodeGenerator.parseRequirements prompt context).errorHandling = true := by
      simp only [ZigCodeGenerator.parseRequirements]
      exact List.any_eq_true.mpr ⟨str ("error"), by decide, (isSub_iff _ _).mpr he⟩
    have htest : (ZigCodeGenerator.parseRequirements prompt context).testing = true := by
      simp only [ZigCodeGenerator.parseRequirements]
      exact List.any_eq_true.mpr ⟨str ("test"), by decide, (isSub_iff _ _).mpr ht⟩
    cases hS : (ZigCodeGenerator.parseRequirements prompt context).features.contains
        (str ("struct")) <;>
    cases hE : (ZigCodeGenerator.parseRequirements prompt context).features.contains
        (str ("enum")) <;>
    cases hU : (ZigCodeGenerator.parseRequirements prompt context).features.contains
        (str ("union")) <;>
    cases hP : (ZigCodeGenerator.parseRequirements prompt context).performance <;>
      (simp only [str] at hS hE hU;
       simp only [ZigMcpServer.generateCodeText, ZigCodeGenerator.generateZigCode,
         ZigCodeGenerator.generateStruct, ZigCodeGenerator.generateEnum,
         ZigCodeGenerator.generateUnion, ZigCodeGenerator.generateFunction,
         ZigCodeGenerator.generateTests, str, hS, hE, hU, hP, hEH, htest,
         if_true, if_false, Bool.false_eq_true, ite_self];
       decide)
  · intro hno ht
    have hEH : (ZigCodeGenerator.parseRequirements prompt context).errorHandling = false := by
      simp only [ZigCodeGenerator.parseRequirements]
      refine List.any_eq_false.mpr ?_
      intro w hw
      simp only [Bool.not_eq_true]
      rcases Bool.eq_false_or_eq_true (includes (ZigCodeGenerator.fullTextOf prompt context) w)
        with h1 | h0
      · exact absurd ((isSub_iff _ _).mp h1) (hno w hw)
      · exact h0
    have htest : (ZigCodeGenerator.parseRequirements prompt context).testing = true := by
      simp only [ZigCodeGenerator.parseRequirements]
      exact List.any_eq_true.mpr ⟨str ("test"), by decide, (isSub_iff _ _).mpr ht⟩
    cases hS : (ZigCodeGenerator.parseRequirements prompt context).features.contains
        (str ("struct")) <;>
    cases hE : (ZigCodeGenerator.parseRequirements prompt context).features.contains
        (str ("enum")) <;>
    cases hU : (ZigCodeGenerator.parseRequirements prompt context).features.contains
        (str ("union")) <;>
    cases hP : (ZigCodeGenerator.parseRequirements prompt context).performance <;>
      (simp only [str] at hS hE hU;
       simp only [ZigMcpServer.generateCodeText, ZigCodeGenerator.generateZigCode,
         ZigCodeGenerator.generateStruct, ZigCodeGenerator.generateEnum,
         ZigCodeGenerator.generateUnion, ZigCodeGenerator.generateFunction,
         ZigCodeGenerator.generateTests, str, hS, hE, hU, hP, hEH, htest,
         if_true, if_false, Bool.false_eq_true, ite_self];
       decide)

-- C6 witness: the presence part at a concrete prompt containing both
-- keywords.
theorem generateCode_expectError_keywords_witness :
    isSub (str ("testing.expectError"))
      (ZigMcpServer.generateCodeText (str ("test error handling")) none) = true :=
  (generateCode_expectError_keywords (str ("test error handling")) none).1
    (by decide) (by decide)

-- A substring of the lowercased prompt occurs in the search text of
-- `parseRequirements` for any optional context.
theorem infix_fullText_of_infix_prompt {w p : Str} (c : Option Str)
    (h : w <:+: toLowerCase p) : w <:+: ZigCodeGenerator.fullTextOf p c := by
  by_cases hw : w = []
  · subst hw; exact List.nil_infix
  · have hpl : toLowerCase p ≠ [] := ne_nil_of_infix hw h
    have hp : p ≠ [] := by intro e; exact hpl (by simp [e, toLowerCase])
    cases c with
    | none =>
      have he : ZigCodeGenerator.fullTextOf p none = toLowerCase p := by
        simp [ZigCodeGenerator.fullTextOf, hp, joinSep]
      rw [he]; exact h
    | some cc =>
      by_cases hc : cc = []
      · have he : ZigCodeGenerator.fullTextOf p (some cc) = toLowerCase p := by
          simp [ZigCodeGenerator.fullTextOf, hp, hc, joinSep]
        rw [he]; exact h
      · have he : ZigCodeGenerator.fullTextOf p (some cc) =
            toLowerCase p ++ ' ' :: toLowerCase cc := by
          simp [ZigCodeGenerator.fullTextOf, hp, hc, joinSep, toLowerCase]
        rw [he]; exact h.trans (List.prefix_append _ _).isInfix

-- ===== C8 =====

/-- C8: for every prompt whose lowercased text contains both "struct"
and "test" (and any optional context), `generate_code`'s output contains
the struct-template definition and exactly two named test blocks, one
named "basic functionality" and one named "edge cases". -/
theorem generateCode_struct_test_output (prompt : Str) (context : Option Str)
    (hs : str ("struct") <:+: toLowerCase prompt)
    (ht : str ("test") <:+: toLowerCase prompt) :
    isSub (str ("pub const MyStruct = struct"))
      (ZigMcpServer.generateCodeText prompt context) = true ∧
    countMatches (RE.lit (str ("test \"")))
      (ZigMcpServer.generateCodeText prompt context) = 2 ∧
    countMatches (RE.lit (str ("test \"basic functionality\"")))
      (ZigMcpServer.generateCodeText prompt context) = 1 ∧
    countMatches (RE.lit (str ("test \"edge cases\"")))
      (ZigMcpServer.generateCodeText prompt context) = 1 := by
  have hsF : includes (ZigCodeGenerator.fullTextOf prompt context) (str ("struct")) = true :=
    (isSub_iff _ _).mpr (infix_fullText_of_infix_prompt context hs)
  have htF : includes (ZigCodeGenerator.fullTextOf prompt context) (str ("test")) = true :=
    (isSub_iff _ _).mpr (infix_fullText_of_infix_prompt context ht)
  have hguard : ZigCodeGenerator.featureKeywords.any
      (fun w => includes (ZigCodeGenerator.fullTextOf prompt context) w) = true :=
    List.any_eq_true.mpr ⟨str ("struct"), by decide, hsF⟩
  have hfeat : (ZigCodeGenerator.parseRequirements prompt context).features.contains
      (str ("struct")) = true := by
    simp only [ZigCodeGenerator.parseRequirements, hguard, if_true]
    exact List.elem_iff.mpr (List.mem_filter.mpr ⟨by decide, hsF⟩)
  have htest : (ZigCodeGenerator.parseRequirements prompt context).testing = true := by
    simp only [ZigCodeGenerator.parseRequirements]
    exact List.any_eq_true.mpr ⟨str ("test"), by decide, htF⟩
  simp only [str] at hfeat htest
  cases hEH : (ZigCodeGenerator.parseRequirements prompt context).errorHandling <;>
    simp only [ZigMcpServer.generateCodeText, ZigCodeGenerator.generateZigCode,
      ZigCodeGenerator.generateStruct, ZigCodeGenerator.generateTests, str,
      hfeat, htest, hEH, if_true, if_false, Bool.false_eq_true, ite_self] <;>
    refine ⟨by decide, by decide, by decide, by decide⟩

-- C8 witness: the theorem at the concrete prompt "struct test".
theorem generateCode_struct_test_output_witness :
    isSub (str ("pub const MyStruct = struct"))
      (ZigMcpServer.generateCodeText (str ("struct test")) none) = true ∧
    countMatches (RE.lit (str ("test \"")))
      (ZigMcpServer.generateCodeText (str ("struct test")) none) = 2 ∧
    countMatches (RE.lit (str ("test \"basic functionality\"")))
      (ZigMcpServer.generateCodeText (str ("struct test")) none) = 1 ∧
    countMatches (RE.lit (str ("test \"edge cases\"")))
      (ZigMcpServer.generateCodeText (str ("struct test")) none) = 1 :=
  generateCode_struct_test_output (str ("struct test")) none (by decide) (by decide)

-- ===== C9 =====

set_option maxHeartbeats 4000000 in
/-- C9: for every requirements value, the generated code contains the
opening text of exactly one of the four templates (struct, enum, union,
function), namely the one selected by feature-set membership in the
fixed priority order struct, then enum, then union, then
function-or-implement, defaulting to the function template
(`specTemplateChoice` states that order in the spec's words; the
function-or-implement case and the default both emit the function
template). -/
theorem generateZigCode_template_choice (req : CodeGenerationRequirements)
    (k : TemplateKind) :
    isSub (templateMarker k) (ZigCodeGenerator.generateZigCode req) = true ↔
    k = specTemplateChoice req.features := by
  cases hS : req.features.contains (str ("struct")) <;>
  cases hE : req.features.contains (str ("enum")) <;>
  cases hU : req.features.contains (str ("union")) <;>
  cases hEH : req.errorHandling <;>
  cases hT : req.testing <;>
  cases hP : req.performance <;>
    (simp only [str] at hS hE hU;
     cases k <;>
       (simp only [ZigCodeGenerator.generateZigCode, ZigCodeGenerator.generateStruct,
         ZigCodeGenerator.generateEnum, ZigCodeGenerator.generateUnion,
         ZigCodeGenerator.generateFunction, ZigCodeGenerator.generateTests,
         specTemplateChoice, templateMarker, str, hS, hE, hU, hEH, hT, hP,
         if_true, if_false, Bool.false_eq_true, ite_self];
        decide))

-- C9 witness: the struct template is selected and present for a
-- requirements value whose features contain "struct".
theorem generateZigCode_template_choice_witness :
    isSub (templateMarker TemplateKind.structT)
      (ZigCodeGenerator.generateZigCode
        { features := [str ("struct")], errorHandling := false,
          testing := false, performance := false }) = true :=
  (generateZigCode_template_choice
    { features := [str ("struct")], errorHandling := false,
      testing := false, performance := false } TemplateKind.structT).mpr (by decide)

-- C7 witness: determinism instantiated at two distinct logging
-- environments and a concrete prompt.
theorem generateCode_deterministic_witness :
    (ZigMcpServer.generateCode (LogEnv.mk (str ("2024-01-01T00:00:00Z")) true)
      (str ("create a function")) none).2 =
    (ZigMcpServer.generateCode (LogEnv.mk (str ("2025-06-30T12:34:56Z")) false)
      (str ("create a function")) none).2 :=
  generateCode_deterministic (LogEnv.mk (str ("2024-01-01T00:00:00Z")) true)
    (LogEnv.mk (str ("2025-06-30T12:34:56Z")) false) (str ("create a function")) none
